import Mathlib

/-!
# Verification of the `gekitchen` ERD codec and appliance state cache

A shallow embedding of the ERD (Electronic Resource Descriptor) value codec
(`gekitchen/erd_utils.py`) and the appliance state cache
(`gekitchen/ge_appliance.py`).  Python's hex strings become Lean `String`s,
`bytes` become `List Nat` (each element one byte), raised exceptions become
`Except PyErr`, and Python `None` becomes `Option.none`.

The `ErdCode` enum itself lives in `gekitchen/erd_constants/erd_codes.py`,
which is not part of the sources; its members are reconstructed from every
use in `erd_utils.py`, `erd/registry.py` and `ge_appliance.py`, and its wire
values (needed only for the second, lowercase lookup in
`translate_erd_code`) are modelled from the spec.
-/

namespace GeKitchen

/-- The classes of Python exception the embedded code can raise.  `typeError`
stands in for the various errors Python raises when a value of the wrong
dynamic type reaches an encoder. -/
inductive PyErr where
  | valueError
  | keyError
  | indexError
  | overflowError
  | notImplementedError
  | unicodeDecodeError
  | typeError
  deriving DecidableEq, Repr

instance {ε α : Type _} [DecidableEq ε] [DecidableEq α] : DecidableEq (Except ε α) :=
  fun x y =>
    match x, y with
    | .ok a, .ok b =>
      if h : a = b then .isTrue (by rw [h]) else .isFalse (by intro hc; cases hc; exact h rfl)
    | .error a, .error b =>
      if h : a = b then .isTrue (by rw [h]) else .isFalse (by intro hc; cases hc; exact h rfl)
    | .ok _, .error _ => .isFalse (by intro hc; cases hc)
    | .error _, .ok _ => .isFalse (by intro hc; cases hc)

/-- Value of one hexadecimal digit, as accepted by Python `int(_, 16)`. -/
def hexDigitVal (c : Char) : Option Nat :=
  if '0' ≤ c ∧ c ≤ '9' then some (c.toNat - '0'.toNat)
  else if 'a' ≤ c ∧ c ≤ 'f' then some (c.toNat - 'a'.toNat + 10)
  else if 'A' ≤ c ∧ c ≤ 'F' then some (c.toNat - 'A'.toNat + 10)
  else none

/-- Python `int(s, 16)` on the strings that occur as ERD raw values: the
digits of `s` read in base 16, `none` (a `ValueError`) when `s` is empty or
contains a character that is not a hex digit.  (Python additionally accepts
signs, whitespace, underscores and an `0x` prefix; none of those characters
occur in the hex-pair raw values this codec consumes.) -/
def hexToNat (s : String) : Option Nat :=
  if s = "" then none
  else s.toList.foldl
    (fun acc c => do
      let a ← acc
      let d ← hexDigitVal c
      pure (a * 16 + d))
    (some 0)

/-- Python `int(s)` (base 10) on the strings that occur as ERD raw values:
`none` (a `ValueError`) unless `s` is a nonempty string of decimal digits.
(Signs, whitespace and underscores again cannot occur in hex-pair values.) -/
def pyDecInt (s : String) : Option Nat :=
  if s = "" then none
  else s.toList.foldl
    (fun acc c =>
      do
        let a ← acc
        if '0' ≤ c ∧ c ≤ '9' then pure (a * 10 + (c.toNat - '0'.toNat)) else none)
    (some 0)

/-- Python `bytes.fromhex`: pairs of hex digits to a list of byte values;
`ValueError` (here `none`) on an odd-length or non-hex-digit string. -/
def bytesFromHex : List Char → Option (List Nat)
  | [] => some []
  | [_] => none
  | c₁ :: c₂ :: rest => do
    let h ← hexDigitVal c₁
    let l ← hexDigitVal c₂
    let tail ← bytesFromHex rest
    pure ((h * 16 + l) :: tail)

/-- Embeds `bytes.fromhex` on a `String`. -/
def strBytesFromHex (s : String) : Option (List Nat) :=
  bytesFromHex s.toList

/-- Python `bytes.rstrip(b'\x00')`: drop trailing zero bytes. -/
def rstripZeros (bs : List Nat) : List Nat :=
  (bs.reverse.dropWhile (· = 0)).reverse

/-- Python `bytes.decode('ascii')`: every byte must be < 128; the result is
the string of those code points.  A byte ≥ 128 raises `UnicodeDecodeError`. -/
def asciiDecode (bs : List Nat) : Except PyErr String :=
  if bs.all (· < 128) then
    .ok ⟨bs.map Char.ofNat⟩
  else
    .error .unicodeDecodeError

/-- The lowercase hex digit character for a value < 16 (as produced by
Python's `bytes.hex`). -/
def hexChar (n : Nat) : Char :=
  if n < 10 then Char.ofNat ('0'.toNat + n) else Char.ofNat ('a'.toNat + (n - 10))

/-- Python `n.to_bytes(2, 'big').hex()`: four lowercase hex digits.
Raises `OverflowError` when `n` does not fit in two bytes. -/
def natToBytes2Hex (n : Nat) : Except PyErr String :=
  if n < 65536 then
    .ok ⟨[hexChar (n / 4096), hexChar (n / 256 % 16), hexChar (n / 16 % 16), hexChar (n % 16)]⟩
  else
    .error .overflowError

/-- Python `str.lower` on the ASCII strings handled here (for ASCII
characters Python's Unicode lowercasing is exactly this byte-wise map). -/
def pyLower (s : String) : String :=
  ⟨s.toList.map fun c =>
    if 'A' ≤ c ∧ c ≤ 'Z' then Char.ofNat (c.toNat + 32) else c⟩

/-- Python `int.from_bytes(bs, 'big')`. -/
def natFromBytes (bs : List Nat) : Nat :=
  bs.foldl (fun acc b => acc * 256 + b) 0

/-- Python `timedelta`: total signed seconds (the decoders construct only
whole-minute spans, so microseconds are always zero and are omitted).
Python compares `timedelta`s by their normalized total duration, which this
representation does directly. -/
abbrev PyTimeDelta := Int

/-- Python `timedelta(minutes=m)`. -/
def timedeltaOfMinutes (m : Nat) : PyTimeDelta := (m : Int) * 60

/-- Python's `timedelta.seconds` attribute: the *within-day* seconds part of
the normalized value, in `[0, 86400)` — not the total duration. -/
def PyTimeDelta.pySeconds (t : PyTimeDelta) : Nat :=
  (Int.emod t 86400).toNat

/- ------------------------------------------------------------------
Primitive codecs (`gekitchen/erd_utils.py`)
------------------------------------------------------------------ -/

/-- Embeds `decode_erd_int`: decode an integer value sent as a hex encoded string
(`int(value, 16)`). -/
def decode_erd_int (value : String) : Except PyErr Nat :=
  match hexToNat value with
  | some n => .ok n
  | none => .error .valueError

/-- Embeds `decode_signed_byte`: `val = int(value, 16); val - 256 if val > 128 else val`. -/
def decode_signed_byte (value : String) : Except PyErr Int :=
  (decode_erd_int value).map fun val =>
    if val > 128 then (val : Int) - 256 else (val : Int)

/-- Embeds `encode_signed_byte`: add 256 to a negative value, then
`value.to_bytes(1, "big").hex()` (which raises `OverflowError` when the
result does not fit one byte). -/
def encode_signed_byte (value : Int) : Except PyErr String :=
  let value := if value < 0 then value + 256 else value
  if 0 ≤ value ∧ value < 256 then
    .ok ⟨[hexChar (value.toNat / 16), hexChar (value.toNat % 16)]⟩
  else
    .error .overflowError

/-- Embeds `_encode_erd_int`: `value.to_bytes(2, 'big').hex()`. -/
def encode_erd_int (value : Nat) : Except PyErr String :=
  natToBytes2Hex value

/-- Embeds `decode_erd_bytes`: `bytes.fromhex(value)`. -/
def decode_erd_bytes (value : String) : Except PyErr (List Nat) :=
  match strBytesFromHex value with
  | some bs => .ok bs
  | none => .error .valueError

/-- Embeds `_decode_erd_string`: `bytes.fromhex`, strip trailing NUL bytes, then
`raw_bytes[1:].decode('ascii')` — note the first remaining byte (believed to
be a checksum) is dropped. -/
def decode_erd_string (value : String) : Except PyErr String := do
  let raw_bytes ← decode_erd_bytes value
  let raw_bytes := rstripZeros raw_bytes
  asciiDecode (raw_bytes.drop 1)

/-- Embeds `_decode_erd_bool`: `None` for the exact string `"FF"`, otherwise
`bool(int(value))` — a *base-10* parse, which raises `ValueError` on any
other string containing a hex letter digit. -/
def decode_erd_bool (value : String) : Except PyErr (Option Bool) :=
  if value = "FF" then .ok none
  else
    match pyDecInt value with
    | some n => .ok (some (n ≠ 0))
    | none => .error .valueError

/-- Embeds `_encode_erd_bool`. -/
def encode_erd_bool (value : Option Bool) : String :=
  match value with
  | none => "FF"
  | some b => if b then "01" else "00"

/-- Embeds `_decode_timespan`: minutes as a 2-byte unsigned int; `65535` is the
"unset" sentinel and decodes to `None`. -/
def decode_timespan (value : String) : Except PyErr (Option PyTimeDelta) :=
  (decode_erd_int value).map fun minutes =>
    if minutes = 65535 then none
    else some (timedeltaOfMinutes minutes)

/-- Embeds `_encode_timespan`: `None` encodes the sentinel `65535`; otherwise the
source computes `value.seconds // 60` — the *within-day* seconds attribute,
so any whole days in the span are silently dropped. -/
def encode_timespan (value : Option PyTimeDelta) : Except PyErr String :=
  let minutes : Nat :=
    match value with
    | none => 65535
    | some v => v.pySeconds / 60
  encode_erd_int minutes

/- ------------------------------------------------------------------
Enumerations (`gekitchen/erd_constants/erd_constants.py`)
------------------------------------------------------------------ -/

/-- Embeds `ErdApplianceType` (values are the raw wire strings). -/
inductive ErdApplianceType where
  | UNKNOWN | WATER_HEATER | DRYER | WASHER | FRIDGE | MICROWAVE | ADVANTIUM
  | DISH_WASHER | OVEN | ELECTRIC_RANGE | GAS_RANGE | AIR_CONDITIONER
  | ELECTRIC_COOKTOP | COOKTOP | PIZZA_OVEN | GAS_COOKTOP | SPLIT_AIR_CONDITIONER
  | HOOD | POE_WATER_FILTER | WATER_SOFTENER | PORTABLE_AIR_CONDITIONER
  | COMBINATION_WASHER_DRYER | ZONELINE | DELEVERY_BOX | CAFE_COFFEE_MAKER
  deriving DecidableEq, Repr

/-- Embeds `ErdApplianceType(value)`: lookup by wire value, `none` = `ValueError`. -/
def ErdApplianceType.ofValue (s : String) : Option ErdApplianceType :=
  if s = "FF" then some .UNKNOWN
  else if s = "00" then some .WATER_HEATER
  else if s = "01" then some .DRYER
  else if s = "02" then some .WASHER
  else if s = "03" then some .FRIDGE
  else if s = "04" then some .MICROWAVE
  else if s = "05" then some .ADVANTIUM
  else if s = "06" then some .DISH_WASHER
  else if s = "07" then some .OVEN
  else if s = "08" then some .ELECTRIC_RANGE
  else if s = "09" then some .GAS_RANGE
  else if s = "0a" then some .AIR_CONDITIONER
  else if s = "0b" then some .ELECTRIC_COOKTOP
  else if s = "11" then some .COOKTOP
  else if s = "0c" then some .PIZZA_OVEN
  else if s = "0d" then some .GAS_COOKTOP
  else if s = "0e" then some .SPLIT_AIR_CONDITIONER
  else if s = "0f" then some .HOOD
  else if s = "10" then some .POE_WATER_FILTER
  else if s = "15" then some .WATER_SOFTENER
  else if s = "16" then some .PORTABLE_AIR_CONDITIONER
  else if s = "17" then some .COMBINATION_WASHER_DRYER
  else if s = "14" then some .ZONELINE
  else if s = "12" then some .DELEVERY_BOX
  else if s = "1A" then some .CAFE_COFFEE_MAKER
  else none

/-- Embeds `ErdMeasurementUnits` (values 0 and 1). -/
inductive ErdMeasurementUnits where
  | IMPERIAL | METRIC
  deriving DecidableEq, Repr

/-- Embeds `ErdMeasurementUnits(n)`. -/
def ErdMeasurementUnits.ofIntValue (n : Nat) : Option ErdMeasurementUnits :=
  if n = 0 then some .IMPERIAL else if n = 1 then some .METRIC else none

/-- Embeds `ErdFullNotFull` (`FULL = "01"`, `NOT_FULL = "00"`, `NA = "NA"`). -/
inductive ErdFullNotFull where
  | FULL | NOT_FULL | NA
  deriving DecidableEq, Repr

/-- Embeds `ErdFullNotFull(value)`. -/
def ErdFullNotFull.ofValue (s : String) : Option ErdFullNotFull :=
  if s = "01" then some .FULL
  else if s = "00" then some .NOT_FULL
  else if s = "NA" then some .NA
  else none

/-- Embeds `ErdDoorStatus` (`CLOSED = "00"`, `OPEN = "01"`, `NA = "FF"`). -/
inductive ErdDoorStatus where
  | CLOSED | OPEN | NA
  deriving DecidableEq, Repr

/-- Embeds `ErdDoorStatus(value)`. -/
def ErdDoorStatus.ofValue (s : String) : Option ErdDoorStatus :=
  if s = "00" then some .CLOSED
  else if s = "01" then some .OPEN
  else if s = "FF" then some .NA
  else none

/-- Embeds `ErdOnOff` (`ON = "01"`, `OFF = "00"`, `NA = "FF"`). -/
inductive ErdOnOff where
  | ON | OFF | NA
  deriving DecidableEq, Repr

/-- Embeds `ErdOnOff(value)`. -/
def ErdOnOff.ofValue (s : String) : Option ErdOnOff :=
  if s = "01" then some .ON
  else if s = "00" then some .OFF
  else if s = "FF" then some .NA
  else none

/-- Embeds `ErdPresent` (`PRESENT = "01"`, `NOT_PRESENT = "00"`, `NA = "FF"`). -/
inductive ErdPresent where
  | PRESENT | NOT_PRESENT | NA
  deriving DecidableEq, Repr

/-- Embeds `ErdPresent(value)`. -/
def ErdPresent.ofValue (s : String) : Option ErdPresent :=
  if s = "01" then some .PRESENT
  else if s = "00" then some .NOT_PRESENT
  else if s = "FF" then some .NA
  else none

/-- Embeds `ErdHotWaterStatus`. -/
inductive ErdHotWaterStatus where
  | NOT_HEATING | HEATING | READY | FAULT_NEED_CLEARED | FAULT_LOCKED_OUT | NA
  deriving DecidableEq, Repr

/-- Embeds `ErdHotWaterStatus(value)`. -/
def ErdHotWaterStatus.ofValue (s : String) : Option ErdHotWaterStatus :=
  if s = "00" then some .NOT_HEATING
  else if s = "01" then some .HEATING
  else if s = "02" then some .READY
  else if s = "FD" then some .FAULT_NEED_CLEARED
  else if s = "FE" then some .FAULT_LOCKED_OUT
  else if s = "NA" then some .NA
  else none

/-- Embeds `ErdPodStatus` (`REPLACE = "00"`, `READY = "01"`, `NA = "FF"`). -/
inductive ErdPodStatus where
  | REPLACE | READY | NA
  deriving DecidableEq, Repr

/-- Embeds `ErdPodStatus(value)`. -/
def ErdPodStatus.ofValue (s : String) : Option ErdPodStatus :=
  if s = "00" then some .REPLACE
  else if s = "01" then some .READY
  else if s = "FF" then some .NA
  else none

/-- Embeds `ErdFilterStatus`. -/
inductive ErdFilterStatus where
  | GOOD | REPLACE | EXPIRED | UNFILTERED | LEAK_DETECTED | NA
  deriving DecidableEq, Repr

/-- Embeds `ErdFilterStatus(value)`. -/
def ErdFilterStatus.ofValue (s : String) : Option ErdFilterStatus :=
  if s = "00" then some .GOOD
  else if s = "01" then some .REPLACE
  else if s = "02" then some .EXPIRED
  else if s = "03" then some .UNFILTERED
  else if s = "04" then some .LEAK_DETECTED
  else if s = "FF" then some .NA
  else none

/-- Embeds `ErdEndTone` (`BEEP = "00"`, `REPEATED_BEEP = "01"`, `NA = "FF"`). -/
inductive ErdEndTone where
  | BEEP | REPEATED_BEEP | NA
  deriving DecidableEq, Repr

/-- Embeds `ErdEndTone(value)`. -/
def ErdEndTone.ofValue (s : String) : Option ErdEndTone :=
  if s = "00" then some .BEEP
  else if s = "01" then some .REPEATED_BEEP
  else if s = "FF" then some .NA
  else none

/-- Wire value of an `ErdEndTone` member (`value.value`). -/
def ErdEndTone.value : ErdEndTone → String
  | .BEEP => "00"
  | .REPEATED_BEEP => "01"
  | .NA => "FF"

/-- Embeds `ErdSoundLevel` (values 0–3). -/
inductive ErdSoundLevel where
  | OFF | LOW | STANDARD | HIGH
  deriving DecidableEq, Repr

/-- Embeds `ErdSoundLevel(n)`. -/
def ErdSoundLevel.ofIntValue (n : Nat) : Option ErdSoundLevel :=
  if n = 0 then some .OFF
  else if n = 1 then some .LOW
  else if n = 2 then some .STANDARD
  else if n = 3 then some .HIGH
  else none

/-- Numeric value of an `ErdSoundLevel` member. -/
def ErdSoundLevel.value : ErdSoundLevel → Nat
  | .OFF => 0
  | .LOW => 1
  | .STANDARD => 2
  | .HIGH => 3

/-- Embeds `ErdClockFormat` (`TWELVE_HOUR = "00"`, `TWENTY_FOUR_HOUR = "01"`,
`NO_DISPLAY = "02"`). -/
inductive ErdClockFormat where
  | TWELVE_HOUR | TWENTY_FOUR_HOUR | NO_DISPLAY
  deriving DecidableEq, Repr

/-- Embeds `ErdClockFormat(value)`. -/
def ErdClockFormat.ofValue (s : String) : Option ErdClockFormat :=
  if s = "00" then some .TWELVE_HOUR
  else if s = "01" then some .TWENTY_FOUR_HOUR
  else if s = "02" then some .NO_DISPLAY
  else none

/-- Wire value of an `ErdClockFormat` member. -/
def ErdClockFormat.value : ErdClockFormat → String
  | .TWELVE_HOUR => "00"
  | .TWENTY_FOUR_HOUR => "01"
  | .NO_DISPLAY => "02"

/-- Embeds `ErdOvenConfiguration` bit masks. -/
inductive ErdOvenConfiguration where
  | HAS_KNOB | HAS_WARMING_DRAWER | HAS_LIGHT_BAR | HAS_LOWER_OVEN
  | HAS_LOWER_OVEN_KITCHEN_TIMER
  deriving DecidableEq, Repr

/-- Numeric value (bit mask) of an `ErdOvenConfiguration` member. -/
def ErdOvenConfiguration.value : ErdOvenConfiguration → Nat
  | .HAS_KNOB => 1
  | .HAS_WARMING_DRAWER => 2
  | .HAS_LIGHT_BAR => 4
  | .HAS_LOWER_OVEN => 8
  | .HAS_LOWER_OVEN_KITCHEN_TIMER => 16

/-- Embeds `ErdOvenState`: oven state constants for display purposes.  Members
with numeric wire values 0–27 come first; the remaining members carry
string values in the source and are only ever produced by name. -/
inductive ErdOvenState where
  | BAKE | BAKE_PREHEAT | BAKE_TWO_TEMP | BROIL_HIGH | BROIL_LOW
  | CLEAN_COOL_DOWN | CLEAN_STAGE1 | CLEAN_STAGE2 | CONV_BAKE
  | CONV_BAKE_PREHEAT | CONV_BAKE_TWO_TEMP | CONV_BROIL_CRISP
  | CONV_BROIL_HIGH | CONV_BROIL_LOW | CONV_MULTI_BAKE_PREHEAT
  | CONV_MULTI_TWO_BAKE | CONV_MUTLI_BAKE | CONV_ROAST | CONV_ROAST2
  | CONV_ROAST_BAKE_PREHEAT | CUSTOM_CLEAN_STAGE2 | DELAY | NO_MODE
  | PROOF | SABBATH | STEAM_CLEAN_STAGE2 | STEAM_COOL_DOWN | WARM
  | OVEN_STATE_BAKE | OVEN_STATE_BAKED_GOODS | OVEN_STATE_BROIL
  | OVEN_STATE_CONV_BAKE | OVEN_STATE_CONV_BAKE_MULTI | OVEN_STATE_CONV_BROIL
  | OVEN_STATE_CONV_ROAST | OVEN_STATE_DELAY_START | OVEN_STATE_DUAL_BROIL_HIGH
  | OVEN_STATE_DUAL_BROIL_LOW | OVEN_STATE_FROZEN_PIZZA
  | OVEN_STATE_FROZEN_PIZZA_MULTI | OVEN_STATE_FROZEN_SNACKS
  | OVEN_STATE_FROZEN_SNACKS_MULTI | OVEN_STATE_PROOF | OVEN_STATE_SELF_CLEAN
  | OVEN_STATE_SPECIAL_X | OVEN_STATE_STEAM_START | OVEN_STATE_WARM
  | STATUS_DASH
  deriving DecidableEq, Repr

/-- Embeds `ErdOvenState(n)`: lookup by numeric wire value (0–27). -/
def ErdOvenState.ofIntValue (n : Nat) : Option ErdOvenState :=
  match n with
  | 0 => some .NO_MODE
  | 1 => some .BAKE_PREHEAT
  | 2 => some .CONV_BAKE_PREHEAT
  | 3 => some .CONV_MULTI_BAKE_PREHEAT
  | 4 => some .CONV_ROAST_BAKE_PREHEAT
  | 5 => some .BAKE
  | 6 => some .BAKE_TWO_TEMP
  | 7 => some .CONV_BAKE
  | 8 => some .CONV_BAKE_TWO_TEMP
  | 9 => some .CONV_MUTLI_BAKE
  | 10 => some .CONV_MULTI_TWO_BAKE
  | 11 => some .CONV_ROAST
  | 12 => some .CONV_ROAST2
  | 13 => some .BROIL_LOW
  | 14 => some .BROIL_HIGH
  | 15 => some .CONV_BROIL_HIGH
  | 16 => some .CONV_BROIL_LOW
  | 17 => some .CONV_BROIL_CRISP
  | 18 => some .WARM
  | 19 => some .PROOF
  | 20 => some .SABBATH
  | 21 => some .CLEAN_STAGE1
  | 22 => some .CLEAN_STAGE2
  | 23 => some .CLEAN_COOL_DOWN
  | 24 => some .CUSTOM_CLEAN_STAGE2
  | 25 => some .STEAM_CLEAN_STAGE2
  | 26 => some .STEAM_COOL_DOWN
  | 27 => some .DELAY
  | _ => none

/-- Embeds `ErdOvenCookMode`: cook-mode codes (see ErdCookMode.smali). -/
inductive ErdOvenCookMode where
  | BAKED_GOODS | BAKETIMEDSHUTOFF_DELAYSTART | BAKETIMED_TWOTEMP
  | BAKETIMED_TWOTEMP_DELAYSTART | BAKETIMED_WARM | BAKETIMED_WARM_DELAYSTART
  | BAKE_DELAYSTART | BAKE_NOOPTION | BAKE_PROBE | BAKE_PROBE_DELAYSTART
  | BAKE_SABBATH | BROIL_HIGH | BROIL_LOW | CONVBAKETIMEDSHUTOFF_DELAYSTART
  | CONVBAKETIMED_TWOTEMP | CONVBAKETIMED_TWOTEMP_DELAYSTART
  | CONVBAKETIMED_WARM | CONVBAKETIMED_WARM_DELAYSTART | CONVBAKE_DELAYSTART
  | CONVBAKE_NOOPTION | CONVBAKE_PROBE | CONVBAKE_PROBE_DELAYSTART
  | CONVBROILCRISP_NOOPTION | CONVBROILCRISP_PROBE | CONVBROIL_HIGH_NOOPTION
  | CONVBROIL_LOW_NOOPTION | CONVMULTIBAKETIMEDSHUTOFF_DELAYSTART
  | CONVMULTIBAKETIMED_TWOTEMP | CONVMULTIBAKETIMED_TWOTEMP_DELAYSTART
  | CONVMULTIBAKETIMED_WARM | CONVMULTIBAKETIMED_WARM_DELAYSTART
  | CONVMULTIBAKE_DELAYSTART | CONVMULTIBAKE_NOOPTION | CONVMULTIBAKE_PROBE
  | CONVMULTIBAKE_PROBE_DELAYSTART | CONVROASTTIMEDSHUTOFF_DELAYSTART
  | CONVROASTTIMED_TWOTEMP | CONVROASTTIMED_TWOTEMP_DELAYSTART
  | CONVROASTTIMED_WARM | CONVROASTTIMED_WARM_DELAYSTART | CONVROAST_DELAYSTART
  | CONVROAST_NOOPTION | CONVROAST_PROBE | CONVROAST_PROBE_DELAYSTART
  | CUSTOMSELFCLEAN | CUSTOMSELFCLEAN_DELAYSTART | DUALBROIL_HIGH_NOOPTION
  | DUALBROIL_LOW_NOOPTION | FROZEN_PIZZA | FROZEN_PIZZA_MULTI | FROZEN_SNACKS
  | FROZEN_SNACKS_MULTI | NOMODE | PROOF_DELAYSTART | PROOF_NOOPTION
  | STEAMCLEAN | STEAMCLEAN_DELAYSTART | WARM_DELAYSTART | WARM_NOOPTION
  | WARM_PROBE
  deriving DecidableEq, Repr

/-- Numeric wire value of an `ErdOvenCookMode` member (note
`FROZEN_SNACKS_MULTI = 567`, as in the source). -/
def ErdOvenCookMode.value : ErdOvenCookMode → Nat
  | .BAKED_GOODS => 60
  | .BAKETIMEDSHUTOFF_DELAYSTART => 7
  | .BAKETIMED_TWOTEMP => 5
  | .BAKETIMED_TWOTEMP_DELAYSTART => 9
  | .BAKETIMED_WARM => 4
  | .BAKETIMED_WARM_DELAYSTART => 8
  | .BAKE_DELAYSTART => 3
  | .BAKE_NOOPTION => 1
  | .BAKE_PROBE => 2
  | .BAKE_PROBE_DELAYSTART => 6
  | .BAKE_SABBATH => 10
  | .BROIL_HIGH => 12
  | .BROIL_LOW => 11
  | .CONVBAKETIMEDSHUTOFF_DELAYSTART => 24
  | .CONVBAKETIMED_TWOTEMP => 22
  | .CONVBAKETIMED_TWOTEMP_DELAYSTART => 26
  | .CONVBAKETIMED_WARM => 21
  | .CONVBAKETIMED_WARM_DELAYSTART => 25
  | .CONVBAKE_DELAYSTART => 20
  | .CONVBAKE_NOOPTION => 18
  | .CONVBAKE_PROBE => 19
  | .CONVBAKE_PROBE_DELAYSTART => 23
  | .CONVBROILCRISP_NOOPTION => 47
  | .CONVBROILCRISP_PROBE => 48
  | .CONVBROIL_HIGH_NOOPTION => 46
  | .CONVBROIL_LOW_NOOPTION => 45
  | .CONVMULTIBAKETIMEDSHUTOFF_DELAYSTART => 33
  | .CONVMULTIBAKETIMED_TWOTEMP => 31
  | .CONVMULTIBAKETIMED_TWOTEMP_DELAYSTART => 35
  | .CONVMULTIBAKETIMED_WARM => 30
  | .CONVMULTIBAKETIMED_WARM_DELAYSTART => 34
  | .CONVMULTIBAKE_DELAYSTART => 29
  | .CONVMULTIBAKE_NOOPTION => 27
  | .CONVMULTIBAKE_PROBE => 28
  | .CONVMULTIBAKE_PROBE_DELAYSTART => 32
  | .CONVROASTTIMEDSHUTOFF_DELAYSTART => 42
  | .CONVROASTTIMED_TWOTEMP => 40
  | .CONVROASTTIMED_TWOTEMP_DELAYSTART => 44
  | .CONVROASTTIMED_WARM => 39
  | .CONVROASTTIMED_WARM_DELAYSTART => 43
  | .CONVROAST_DELAYSTART => 38
  | .CONVROAST_NOOPTION => 36
  | .CONVROAST_PROBE => 37
  | .CONVROAST_PROBE_DELAYSTART => 41
  | .CUSTOMSELFCLEAN => 49
  | .CUSTOMSELFCLEAN_DELAYSTART => 50
  | .DUALBROIL_HIGH_NOOPTION => 54
  | .DUALBROIL_LOW_NOOPTION => 53
  | .FROZEN_PIZZA => 58
  | .FROZEN_PIZZA_MULTI => 59
  | .FROZEN_SNACKS => 56
  | .FROZEN_SNACKS_MULTI => 567
  | .NOMODE => 0
  | .PROOF_DELAYSTART => 14
  | .PROOF_NOOPTION => 13
  | .STEAMCLEAN => 51
  | .STEAMCLEAN_DELAYSTART => 52
  | .WARM_DELAYSTART => 17
  | .WARM_NOOPTION => 15
  | .WARM_PROBE => 16

/-- All members of `ErdOvenCookMode`, in definition order. -/
def ErdOvenCookMode.members : List ErdOvenCookMode :=
  [.BAKED_GOODS, .BAKETIMEDSHUTOFF_DELAYSTART, .BAKETIMED_TWOTEMP,
   .BAKETIMED_TWOTEMP_DELAYSTART, .BAKETIMED_WARM, .BAKETIMED_WARM_DELAYSTART,
   .BAKE_DELAYSTART, .BAKE_NOOPTION, .BAKE_PROBE, .BAKE_PROBE_DELAYSTART,
   .BAKE_SABBATH, .BROIL_HIGH, .BROIL_LOW, .CONVBAKETIMEDSHUTOFF_DELAYSTART,
   .CONVBAKETIMED_TWOTEMP, .CONVBAKETIMED_TWOTEMP_DELAYSTART,
   .CONVBAKETIMED_WARM, .CONVBAKETIMED_WARM_DELAYSTART, .CONVBAKE_DELAYSTART,
   .CONVBAKE_NOOPTION, .CONVBAKE_PROBE, .CONVBAKE_PROBE_DELAYSTART,
   .CONVBROILCRISP_NOOPTION, .CONVBROILCRISP_PROBE, .CONVBROIL_HIGH_NOOPTION,
   .CONVBROIL_LOW_NOOPTION, .CONVMULTIBAKETIMEDSHUTOFF_DELAYSTART,
   .CONVMULTIBAKETIMED_TWOTEMP, .CONVMULTIBAKETIMED_TWOTEMP_DELAYSTART,
   .CONVMULTIBAKETIMED_WARM, .CONVMULTIBAKETIMED_WARM_DELAYSTART,
   .CONVMULTIBAKE_DELAYSTART, .CONVMULTIBAKE_NOOPTION, .CONVMULTIBAKE_PROBE,
   .CONVMULTIBAKE_PROBE_DELAYSTART, .CONVROASTTIMEDSHUTOFF_DELAYSTART,
   .CONVROASTTIMED_TWOTEMP, .CONVROASTTIMED_TWOTEMP_DELAYSTART,
   .CONVROASTTIMED_WARM, .CONVROASTTIMED_WARM_DELAYSTART, .CONVROAST_DELAYSTART,
   .CONVROAST_NOOPTION, .CONVROAST_PROBE, .CONVROAST_PROBE_DELAYSTART,
   .CUSTOMSELFCLEAN, .CUSTOMSELFCLEAN_DELAYSTART, .DUALBROIL_HIGH_NOOPTION,
   .DUALBROIL_LOW_NOOPTION, .FROZEN_PIZZA, .FROZEN_PIZZA_MULTI, .FROZEN_SNACKS,
   .FROZEN_SNACKS_MULTI, .NOMODE, .PROOF_DELAYSTART, .PROOF_NOOPTION,
   .STEAMCLEAN, .STEAMCLEAN_DELAYSTART, .WARM_DELAYSTART, .WARM_NOOPTION,
   .WARM_PROBE]

/-- Embeds `ErdOvenCookMode(n)`: lookup by numeric wire value. -/
def ErdOvenCookMode.ofIntValue (n : Nat) : Option ErdOvenCookMode :=
  ErdOvenCookMode.members.find? (fun m => m.value = n)

/- ------------------------------------------------------------------
Structured value types (`gekitchen/erd_types.py`)
------------------------------------------------------------------ -/

/-- Embeds `AvailableCookMode`: parsing helper for available cook modes. -/
structure AvailableCookMode where
  byte : Nat
  mask : Nat
  cook_mode : ErdOvenCookMode
  deriving DecidableEq, Repr

/-- Embeds `OvenConfiguration`. -/
structure OvenConfiguration where
  has_knob : Bool
  has_warming_drawer : Bool
  has_light_bar : Bool
  has_lower_oven : Bool
  has_lower_oven_kitchen_timer : Bool
  raw_value : Option String := none
  deriving DecidableEq, Repr

/-- Embeds `OvenCookMode` named tuple (fields after `oven_state` default to false). -/
structure OvenCookMode where
  oven_state : ErdOvenState
  delayed : Bool := false
  timed : Bool := false
  probe : Bool := false
  warm : Bool := false
  sabbath : Bool := false
  deriving DecidableEq, Repr

/-- Embeds `OvenCookSetting`. -/
structure OvenCookSetting where
  cook_mode : OvenCookMode
  temperature : Nat
  raw_bytes : Option (List Nat) := none
  deriving DecidableEq, Repr

/-- Embeds `FridgeIceBucketStatus`. -/
structure FridgeIceBucketStatus where
  state_full_fridge : ErdFullNotFull
  state_full_freezer : ErdFullNotFull
  is_present_fridge : Bool
  is_present_freezer : Bool
  total_status : ErdFullNotFull
  deriving DecidableEq, Repr

/-- Embeds `IceMakerControlStatus`. -/
structure IceMakerControlStatus where
  status_fridge : ErdOnOff
  status_freezer : ErdOnOff
  deriving DecidableEq, Repr

/-- Embeds `FridgeDoorStatus`. -/
structure FridgeDoorStatus where
  fridge_right : ErdDoorStatus
  fridge_left : ErdDoorStatus
  freezer : ErdDoorStatus
  drawer : ErdDoorStatus
  status : String
  deriving DecidableEq, Repr

/-- Embeds `FridgeSetPointLimits`. -/
structure FridgeSetPointLimits where
  fridge_min : Int
  fridge_max : Int
  freezer_min : Int
  freezer_max : Int
  deriving DecidableEq, Repr

/-- Embeds `FridgeSetPoints`. -/
structure FridgeSetPoints where
  fridge : Int
  freezer : Int
  deriving DecidableEq, Repr

/-- Embeds `HotWaterStatus`. -/
structure HotWaterStatus where
  status : ErdHotWaterStatus
  time_until_ready : Option PyTimeDelta
  current_temp : Option Nat
  tank_full : ErdFullNotFull
  brew_module : ErdPresent
  pod_status : ErdPodStatus
  deriving DecidableEq, Repr

/-- Embeds `ErdAvailableCookMode`, as the list of its members in definition order
(each member's value is an `AvailableCookMode` tuple). -/
def ErdAvailableCookMode.members : List AvailableCookMode :=
  [⟨9, 2, .BAKE_NOOPTION⟩,
   ⟨7, 4, .CONVBAKE_NOOPTION⟩,
   ⟨6, 8, .CONVMULTIBAKE_NOOPTION⟩,
   ⟨5, 16, .CONVROAST_NOOPTION⟩,
   ⟨2, 1, .FROZEN_SNACKS⟩,
   ⟨2, 2, .FROZEN_SNACKS_MULTI⟩,
   ⟨2, 4, .FROZEN_PIZZA⟩,
   ⟨2, 8, .FROZEN_PIZZA_MULTI⟩,
   ⟨2, 16, .BAKED_GOODS⟩]

/-- Embeds `OVEN_COOK_MODE_MAP`: the bidict translating `ErdOvenCookMode` members
into `OvenCookMode` tuples (forward direction). -/
def OVEN_COOK_MODE_MAP : ErdOvenCookMode → OvenCookMode
  | .BAKED_GOODS => ⟨.OVEN_STATE_BAKED_GOODS, false, false, false, false, false⟩
  | .BAKETIMEDSHUTOFF_DELAYSTART => ⟨.BAKE, true, true, false, false, false⟩
  | .BAKETIMED_TWOTEMP => ⟨.BAKE_TWO_TEMP, false, true, false, false, false⟩
  | .BAKETIMED_TWOTEMP_DELAYSTART => ⟨.BAKE_TWO_TEMP, true, true, false, false, false⟩
  | .BAKETIMED_WARM => ⟨.WARM, false, true, false, false, false⟩
  | .BAKETIMED_WARM_DELAYSTART => ⟨.WARM, true, true, false, false, false⟩
  | .BAKE_DELAYSTART => ⟨.BAKE, true, false, false, false, false⟩
  | .BAKE_NOOPTION => ⟨.BAKE, false, false, false, false, false⟩
  | .BAKE_PROBE => ⟨.BAKE, false, false, true, false, false⟩
  | .BAKE_PROBE_DELAYSTART => ⟨.BAKE, true, false, true, false, false⟩
  | .BAKE_SABBATH => ⟨.BAKE, false, false, false, false, true⟩
  | .BROIL_HIGH => ⟨.BROIL_HIGH, false, false, false, false, false⟩
  | .BROIL_LOW => ⟨.BROIL_LOW, false, false, false, false, false⟩
  | .CONVBAKETIMEDSHUTOFF_DELAYSTART => ⟨.CONV_BAKE, true, true, false, false, false⟩
  | .CONVBAKETIMED_TWOTEMP => ⟨.CONV_BAKE_TWO_TEMP, false, true, false, false, false⟩
  | .CONVBAKETIMED_TWOTEMP_DELAYSTART => ⟨.CONV_BAKE_TWO_TEMP, true, true, false, false, false⟩
  | .CONVBAKETIMED_WARM => ⟨.CONV_BAKE, false, true, false, true, false⟩
  | .CONVBAKETIMED_WARM_DELAYSTART => ⟨.CONV_BAKE, true, true, false, true, false⟩
  | .CONVBAKE_DELAYSTART => ⟨.CONV_BAKE, true, false, false, false, false⟩
  | .CONVBAKE_NOOPTION => ⟨.CONV_BAKE, false, false, false, false, false⟩
  | .CONVBAKE_PROBE => ⟨.CONV_BAKE, false, false, true, false, false⟩
  | .CONVBAKE_PROBE_DELAYSTART => ⟨.CONV_BAKE, true, false, true, false, false⟩
  | .CONVBROILCRISP_NOOPTION => ⟨.CONV_BROIL_CRISP, false, false, false, false, false⟩
  | .CONVBROILCRISP_PROBE => ⟨.CONV_BROIL_CRISP, false, false, true, false, false⟩
  | .CONVBROIL_HIGH_NOOPTION => ⟨.CONV_BROIL_HIGH, false, false, false, false, false⟩
  | .CONVBROIL_LOW_NOOPTION => ⟨.CONV_BROIL_LOW, false, false, false, false, false⟩
  | .CONVMULTIBAKETIMEDSHUTOFF_DELAYSTART => ⟨.CONV_MUTLI_BAKE, true, true, false, false, false⟩
  | .CONVMULTIBAKETIMED_TWOTEMP => ⟨.CONV_MULTI_TWO_BAKE, false, true, false, false, false⟩
  | .CONVMULTIBAKETIMED_TWOTEMP_DELAYSTART => ⟨.CONV_MULTI_TWO_BAKE, true, true, false, false, false⟩
  | .CONVMULTIBAKETIMED_WARM => ⟨.CONV_MUTLI_BAKE, false, true, false, true, false⟩
  | .CONVMULTIBAKETIMED_WARM_DELAYSTART => ⟨.CONV_MUTLI_BAKE, true, true, false, true, false⟩
  | .CONVMULTIBAKE_DELAYSTART => ⟨.CONV_MUTLI_BAKE, true, false, false, false, false⟩
  | .CONVMULTIBAKE_NOOPTION => ⟨.CONV_MUTLI_BAKE, false, false, false, false, false⟩
  | .CONVMULTIBAKE_PROBE => ⟨.CONV_MUTLI_BAKE, false, false, true, false, false⟩
  | .CONVMULTIBAKE_PROBE_DELAYSTART => ⟨.CONV_MUTLI_BAKE, true, false, true, false, false⟩
  | .CONVROASTTIMEDSHUTOFF_DELAYSTART => ⟨.CONV_ROAST, true, true, false, false, false⟩
  | .CONVROASTTIMED_TWOTEMP => ⟨.CONV_ROAST2, false, true, false, false, false⟩
  | .CONVROASTTIMED_TWOTEMP_DELAYSTART => ⟨.CONV_ROAST2, true, true, false, false, false⟩
  | .CONVROASTTIMED_WARM => ⟨.CONV_ROAST, false, true, false, true, false⟩
  | .CONVROASTTIMED_WARM_DELAYSTART => ⟨.CONV_ROAST, true, true, false, true, false⟩
  | .CONVROAST_DELAYSTART => ⟨.CONV_ROAST, true, false, false, false, false⟩
  | .CONVROAST_NOOPTION => ⟨.CONV_ROAST, false, false, false, false, false⟩
  | .CONVROAST_PROBE => ⟨.CONV_ROAST, false, false, true, false, false⟩
  | .CONVROAST_PROBE_DELAYSTART => ⟨.CONV_ROAST, true, false, true, false, false⟩
  | .CUSTOMSELFCLEAN => ⟨.CUSTOM_CLEAN_STAGE2, false, false, false, false, false⟩
  | .CUSTOMSELFCLEAN_DELAYSTART => ⟨.CUSTOM_CLEAN_STAGE2, true, false, false, false, false⟩
  | .DUALBROIL_HIGH_NOOPTION => ⟨.OVEN_STATE_DUAL_BROIL_HIGH, false, false, false, false, false⟩
  | .DUALBROIL_LOW_NOOPTION => ⟨.OVEN_STATE_DUAL_BROIL_LOW, false, false, false, false, false⟩
  | .FROZEN_PIZZA => ⟨.OVEN_STATE_FROZEN_PIZZA, false, false, false, false, false⟩
  | .FROZEN_PIZZA_MULTI => ⟨.OVEN_STATE_FROZEN_PIZZA_MULTI, false, false, false, false, false⟩
  | .FROZEN_SNACKS => ⟨.OVEN_STATE_FROZEN_SNACKS, false, false, false, false, false⟩
  | .FROZEN_SNACKS_MULTI => ⟨.OVEN_STATE_FROZEN_SNACKS_MULTI, false, false, false, false, false⟩
  | .NOMODE => ⟨.NO_MODE, false, false, false, false, false⟩
  | .PROOF_DELAYSTART => ⟨.PROOF, true, false, false, false, false⟩
  | .PROOF_NOOPTION => ⟨.PROOF, false, false, false, false, false⟩
  | .STEAMCLEAN => ⟨.STEAM_CLEAN_STAGE2, false, false, false, false, false⟩
  | .STEAMCLEAN_DELAYSTART => ⟨.STEAM_CLEAN_STAGE2, true, false, false, false, false⟩
  | .WARM_DELAYSTART => ⟨.WARM, true, false, false, false, false⟩
  | .WARM_NOOPTION => ⟨.WARM, false, false, false, false, false⟩
  | .WARM_PROBE => ⟨.WARM, false, false, true, false, false⟩

/-- Embeds `OVEN_COOK_MODE_MAP.inverse`: lookup of the `ErdOvenCookMode` key whose
image is the given tuple; `none` = `KeyError`. -/
def OVEN_COOK_MODE_MAP_inverse (m : OvenCookMode) : Option ErdOvenCookMode :=
  ErdOvenCookMode.members.find? (fun k => OVEN_COOK_MODE_MAP k = m)

/- ------------------------------------------------------------------
Composite decoders (`gekitchen/erd_utils.py`)
------------------------------------------------------------------ -/

/-- Embeds `_decode_oven_ranges`: upper temp from the first two bytes, lower temp
from the last two (`raw_bytes[-2:]`), returned as `(lower, upper)`. -/
def decode_oven_ranges (value : String) : Except PyErr (Nat × Nat) := do
  let raw_bytes ← decode_erd_bytes value
  let upper_temp := natFromBytes (raw_bytes.take 2)
  let lower_temp := natFromBytes ((raw_bytes.reverse.take 2).reverse)
  .ok (lower_temp, upper_temp)

/-- Embeds `_decode_appliance_type`: enum lookup with fallback to `UNKNOWN`. -/
def decode_appliance_type (value : String) : ErdApplianceType :=
  (ErdApplianceType.ofValue value).getD .UNKNOWN

/-- Embeds `_decode_measurement_unit`: `ErdMeasurementUnits(int(value))` — a base-10
parse followed by an enum lookup, either of which raises `ValueError`. -/
def decode_measurement_unit (value : String) : Except PyErr ErdMeasurementUnits :=
  match pyDecInt value with
  | none => .error .valueError
  | some n =>
    match ErdMeasurementUnits.ofIntValue n with
    | some u => .ok u
    | none => .error .valueError

/-- Embeds `_encode_measurement_unit`: `f'{value.value:02d}'`. -/
def encode_measurement_unit (value : ErdMeasurementUnits) : String :=
  match value with
  | .IMPERIAL => "00"
  | .METRIC => "01"

/-- Embeds `_decode_cook_modes`: empty input defaults to `{BAKE_NOOPTION}`;
otherwise each `ErdAvailableCookMode` member contributes its `cook_mode`
when `mode_bytes[member.byte] & member.mask` is nonzero (`IndexError` when
the byte index is out of range).  The Python set is represented as the list
of contributing modes in member-definition order. -/
def decode_cook_modes (value : String) : Except PyErr (List ErdOvenCookMode) :=
  if value = "" then .ok [ErdOvenCookMode.BAKE_NOOPTION]
  else do
    let mode_bytes ← decode_erd_bytes value
    ErdAvailableCookMode.members.foldlM
      (fun acc m =>
        match mode_bytes.get? m.byte with
        | none => .error .indexError
        | some b => .ok (if b &&& m.mask ≠ 0 then acc ++ [m.cook_mode] else acc))
      []

/-- Embeds `_decode_oven_state`: ordered range checks, then direct enum lookup for
codes 1–27, and `STATUS_DASH` for everything else. -/
def decode_oven_state (value : String) : Except PyErr ErdOvenState := do
  let state_code ← decode_erd_int value
  if 44 ≤ state_code ∧ state_code ≤ 59 then .ok .OVEN_STATE_SPECIAL_X
  else if 42 ≤ state_code ∧ state_code ≤ 43 then .ok .OVEN_STATE_BAKED_GOODS
  else if 40 ≤ state_code ∧ state_code ≤ 41 then .ok .OVEN_STATE_FROZEN_PIZZA_MULTI
  else if 38 ≤ state_code ∧ state_code ≤ 39 then .ok .OVEN_STATE_FROZEN_SNACKS_MULTI
  else if 36 ≤ state_code ∧ state_code ≤ 37 then .ok .OVEN_STATE_FROZEN_PIZZA
  else if 33 ≤ state_code ∧ state_code ≤ 35 then .ok .OVEN_STATE_FROZEN_SNACKS
  else if 1 ≤ state_code ∧ state_code ≤ 27 then
    match ErdOvenState.ofIntValue state_code with
    | some s => .ok s
    | none => .error .valueError
  else .ok .STATUS_DASH

/-- Embeds `_decode_oven_cook_mode`: byte 0 is the cook-mode code (mapped through
`OVEN_COOK_MODE_MAP`), bytes 1–2 the big-endian temperature; the raw bytes
are preserved in the result. -/
def decode_oven_cook_mode (value : String) : Except PyErr OvenCookSetting := do
  let byte_string ← decode_erd_bytes value
  match byte_string.get? 0 with
  | none => .error .indexError
  | some cook_mode_code =>
    let temperature := natFromBytes ((byte_string.drop 1).take 2)
    match ErdOvenCookMode.ofIntValue cook_mode_code with
    | none => .error .valueError
    | some cook_mode =>
      .ok ⟨OVEN_COOK_MODE_MAP cook_mode, temperature, some byte_string⟩

/-- Embeds `_encode_oven_cook_mode`: invert `OVEN_COOK_MODE_MAP`, one byte of mode
code, two bytes of temperature, then ten zero bytes. -/
def encode_oven_cook_mode (cook_setting : OvenCookSetting) : Except PyErr String :=
  match OVEN_COOK_MODE_MAP_inverse cook_setting.cook_mode with
  | none => .error .keyError
  | some m =>
    let cook_mode_code := m.value
    if cook_mode_code < 256 then do
      let temperature_hex ← natToBytes2Hex cook_setting.temperature
      .ok (String.mk [hexChar (cook_mode_code / 16), hexChar (cook_mode_code % 16)]
            ++ temperature_hex ++ "00000000000000000000")
    else .error .overflowError

/-- Embeds `_decode_oven_configuration`: empty input is treated as 0; each feature
flag is one bit of the decoded integer; the raw string is preserved. -/
def decode_oven_configuration (value : String) : Except PyErr OvenConfiguration := do
  let n ← if value = "" then .ok 0 else decode_erd_int value
  .ok
    { has_knob := n &&& ErdOvenConfiguration.HAS_KNOB.value ≠ 0
      has_warming_drawer := n &&& ErdOvenConfiguration.HAS_WARMING_DRAWER.value ≠ 0
      has_light_bar := n &&& ErdOvenConfiguration.HAS_LIGHT_BAR.value ≠ 0
      has_lower_oven := n &&& ErdOvenConfiguration.HAS_LOWER_OVEN.value ≠ 0
      has_lower_oven_kitchen_timer :=
        n &&& ErdOvenConfiguration.HAS_LOWER_OVEN_KITCHEN_TIMER.value ≠ 0
      raw_value := some value }

/-- Embeds `_decode_ice_bucket_status`: bit 0 = fridge bucket present, bit 1 =
freezer bucket present, bit 2 = fridge full, bit 3 = freezer full; an absent
bucket forces its full state to `NA`.  The "no ice buckets at all" test is
transcribed literally from the source, which tests `is_present_ff` twice
(`if not (is_present_ff or is_present_ff)`). -/
def decode_ice_bucket_status (value : String) : Except PyErr FridgeIceBucketStatus := do
  let n ← if value = "" then .ok 0 else decode_erd_int value
  let is_present_ff : Bool := n &&& 1 ≠ 0
  let is_present_fz : Bool := n &&& 2 ≠ 0
  let state_full_ff := if n &&& 4 ≠ 0 then ErdFullNotFull.FULL else ErdFullNotFull.NOT_FULL
  let state_full_fz := if n &&& 8 ≠ 0 then ErdFullNotFull.FULL else ErdFullNotFull.NOT_FULL
  let state_full_ff := if !is_present_ff then ErdFullNotFull.NA else state_full_ff
  let state_full_fz := if !is_present_fz then ErdFullNotFull.NA else state_full_fz
  let total_status :=
    if !(is_present_ff || is_present_ff) then ErdFullNotFull.NA
    else if state_full_ff = .NOT_FULL ∨ state_full_fz = .NOT_FULL then ErdFullNotFull.NOT_FULL
    else ErdFullNotFull.FULL
  .ok
    { state_full_fridge := state_full_ff
      state_full_freezer := state_full_fz
      is_present_fridge := is_present_ff
      is_present_freezer := is_present_fz
      total_status := total_status }

/-- Wire value of an `ErdOnOff` member. -/
def ErdOnOff.value : ErdOnOff → String
  | .ON => "01"
  | .OFF => "00"
  | .NA => "FF"

/-- Embeds `_decode_ice_maker_control`: freezer status from `value[:2]`, fridge
status from `value[2:]`, each falling back to `NA`. -/
def decode_ice_maker_control (value : String) : IceMakerControlStatus :=
  let parse_status := fun v => (ErdOnOff.ofValue v).getD .NA
  let status_fz := parse_status (value.take 2)
  let status_ff := parse_status (value.drop 2)
  ⟨status_ff, status_fz⟩

/-- Embeds `_encode_ice_maker_control`: freezer wire value then fridge wire value. -/
def encode_ice_maker_control (value : IceMakerControlStatus) : String :=
  value.status_freezer.value ++ value.status_fridge.value

/-- Embeds `_decode_fridge_door`: four one-byte door fields with per-field fallback
to `NA`, plus the derived human-readable aggregate string. -/
def decode_fridge_door (value : String) : FridgeDoorStatus :=
  let get_door_status := fun v => (ErdDoorStatus.ofValue v).getD .NA
  let fridge_right := get_door_status (value.take 2)
  let fridge_left := get_door_status ((value.drop 2).take 2)
  let freezer := get_door_status ((value.drop 4).take 2)
  let drawer := get_door_status ((value.drop 6).take 2)
  let status :=
    if fridge_right ≠ .OPEN ∧ fridge_left ≠ .OPEN then
      if freezer = .OPEN then "Freezer Open" else "Closed"
    else if freezer = .OPEN then "All Open"
    else "Fridge Open"
  { fridge_right := fridge_right
    fridge_left := fridge_left
    freezer := freezer
    drawer := drawer
    status := status }

/-- Embeds `_decode_fridge_limits`: four signed bytes. -/
def decode_fridge_limits (value : String) : Except PyErr FridgeSetPointLimits := do
  let fridge_min ← decode_signed_byte (value.take 2)
  let fridge_max ← decode_signed_byte ((value.drop 2).take 2)
  let freezer_min ← decode_signed_byte ((value.drop 4).take 2)
  let freezer_max ← decode_signed_byte ((value.drop 6).take 2)
  .ok ⟨fridge_min, fridge_max, freezer_min, freezer_max⟩

/-- Embeds `_decode_fridge_setpoint`: two signed bytes. -/
def decode_fridge_setpoint (value : String) : Except PyErr FridgeSetPoints := do
  let fridge ← decode_signed_byte (value.take 2)
  let freezer ← decode_signed_byte ((value.drop 2).take 2)
  .ok ⟨fridge, freezer⟩

/-- Embeds `_encode_fridge_setpoint`. -/
def encode_fridge_setpoint (value : FridgeSetPoints) : Except PyErr String := do
  let f ← encode_signed_byte value.fridge
  let z ← encode_signed_byte value.freezer
  .ok (f ++ z)

/-- Embeds `_decode_hot_water_status`: empty input decodes to an all-`NA`
composite; otherwise a fixed byte layout with per-field fallback to `NA`
for the enum fields (the two integer fields raise on malformed hex). -/
def decode_hot_water_status (value : String) : Except PyErr HotWaterStatus :=
  if value = "" then
    .ok ⟨.NA, none, none, .NA, .NA, .NA⟩
  else do
    let status := (ErdHotWaterStatus.ofValue (value.take 2)).getD .NA
    let mins ← decode_erd_int ((value.drop 2).take 4)
    let time_until_ready := timedeltaOfMinutes mins
    let current_temp ← decode_erd_int ((value.drop 6).take 2)
    let tank_full := (ErdFullNotFull.ofValue ((value.drop 8).take 2)).getD .NA
    let brew_module := (ErdPresent.ofValue ((value.drop 10).take 2)).getD .NA
    let pod_status := (ErdPodStatus.ofValue ((value.drop 12).take 2)).getD .NA
    .ok ⟨status, some time_until_ready, some current_temp, tank_full, brew_module, pod_status⟩

/-- Embeds `_decode_filter_status`: the first byte, or the second when the first is
`"00"`, looked up with fallback to `NA`. -/
def decode_filter_status (value : String) : ErdFilterStatus :=
  let status_byte := value.take 2
  let status_byte := if status_byte = "00" then (value.drop 2).take 2 else status_byte
  (ErdFilterStatus.ofValue status_byte).getD .NA

/-- Embeds `textwrap.wrap(value, 2)` on a string of hex digits: chunks of two
characters (the last possibly shorter).  `textwrap`'s whitespace handling
cannot trigger on such strings. -/
def chunk2 : List Char → List String
  | [] => []
  | [c] => [⟨[c]⟩]
  | a :: b :: rest => ⟨[a, b]⟩ :: chunk2 rest

/-- Embeds `_decode_sw_version`: each byte decoded as an integer, dot-joined. -/
def decode_sw_version (value : String) : Except PyErr String := do
  let vals := chunk2 value.toList
  let parts ← vals.mapM (fun v => (decode_erd_int v).map (fun n => toString n))
  .ok (String.intercalate "." parts)

/-- Embeds `_decode_end_tone`: enum lookup with fallback to `NA`. -/
def decode_end_tone (value : String) : ErdEndTone :=
  (ErdEndTone.ofValue value).getD .NA

/-- Embeds `_encode_end_tone`: `ValueError` on `NA`, else the wire value. -/
def encode_end_tone (value : ErdEndTone) : Except PyErr String :=
  if value = .NA then .error .valueError else .ok value.value

/-- Embeds `_decode_sound_level`: integer decode then enum lookup (which raises
`ValueError` for an out-of-range level). -/
def decode_sound_level (value : String) : Except PyErr ErdSoundLevel := do
  let sound_level ← decode_erd_int value
  match ErdSoundLevel.ofIntValue sound_level with
  | some s => .ok s
  | none => .error .valueError

/-- Embeds `_encode_sound_level`. -/
def encode_sound_level (value : ErdSoundLevel) : Except PyErr String :=
  encode_erd_int value.value

/-- Embeds `_decode_clock_format`: `ErdClockFormat(value)` — raises `ValueError` on
an unknown wire value (no fallback here). -/
def decode_clock_format (value : String) : Except PyErr ErdClockFormat :=
  match ErdClockFormat.ofValue value with
  | some c => .ok c
  | none => .error .valueError

/-- Embeds `_encode_clock_format`. -/
def encode_clock_format (value : ErdClockFormat) : String :=
  value.value

/- ------------------------------------------------------------------
ERD codes (`gekitchen/erd_constants/erd_codes.py`, reconstructed)
------------------------------------------------------------------ -/

/-- Modelled from the spec: the `ErdCode` enum ("a *known* enumerated
constant (finite, fixed set known at build time, each with a canonical
string form)") is defined in `erd_codes.py`, which is missing from the
sources.  The members below are exactly those referenced by
`erd_utils.py`, `erd/registry.py` and `ge_appliance.py`. -/
inductive ErdCode where
  | APPLIANCE_TYPE | MODEL_NUMBER | SERIAL_NUMBER | SABBATH_MODE
  | ACM_UPDATING | APPLIANCE_UPDATING | LCD_UPDATING | CLOCK_FORMAT
  | END_TONE | SOUND_LEVEL | TEMPERATURE_UNIT | APPLIANCE_SW_VERSION
  | APPLIANCE_SW_VERSION_AVAILABLE | LCD_SW_VERSION | LCD_SW_VERSION_AVAILABLE
  | WIFI_MODULE_SW_VERSION | WIFI_MODULE_SW_VERSION_AVAILABLE
  | HOT_WATER_SET_TEMP | HOT_WATER_IN_USE | TURBO_FREEZE_STATUS
  | TURBO_COOL_STATUS | DOOR_STATUS | HOT_WATER_STATUS
  | ICE_MAKER_BUCKET_STATUS | ICE_MAKER_CONTROL | WATER_FILTER_STATUS
  | SETPOINT_LIMITS | CURRENT_TEMPERATURE | TEMPERATURE_SETTING
  | LOWER_OVEN_PROBE_PRESENT | LOWER_OVEN_REMOTE_ENABLED
  | LOWER_OVEN_DISPLAY_TEMPERATURE | LOWER_OVEN_PROBE_DISPLAY_TEMP
  | LOWER_OVEN_RAW_TEMPERATURE | LOWER_OVEN_USER_TEMP_OFFSET
  | LOWER_OVEN_COOK_TIME_REMAINING | LOWER_OVEN_DELAY_TIME_REMAINING
  | LOWER_OVEN_ELAPSED_COOK_TIME | LOWER_OVEN_KITCHEN_TIMER
  | LOWER_OVEN_CURRENT_STATE | LOWER_OVEN_AVAILABLE_COOK_MODES
  | LOWER_OVEN_COOK_MODE
  | UPPER_OVEN_PROBE_PRESENT | UPPER_OVEN_REMOTE_ENABLED
  | UPPER_OVEN_DISPLAY_TEMPERATURE | UPPER_OVEN_PROBE_DISPLAY_TEMP
  | UPPER_OVEN_RAW_TEMPERATURE | UPPER_OVEN_USER_TEMP_OFFSET
  | UPPER_OVEN_COOK_TIME_REMAINING | UPPER_OVEN_DELAY_TIME_REMAINING
  | UPPER_OVEN_ELAPSED_COOK_TIME | UPPER_OVEN_KITCHEN_TIMER
  | UPPER_OVEN_CURRENT_STATE | UPPER_OVEN_AVAILABLE_COOK_MODES
  | UPPER_OVEN_COOK_MODE
  | CONVECTION_CONVERSION | HOUR_12_SHUTOFF_ENABLED | OVEN_CONFIGURATION
  | OVEN_MODE_MIN_MAX_TEMP
  | CYCLE_NAME | PODS_REMAINING_VALUE | TIME_REMAINING | CYCLE_STATE
  | OPERATING_MODE | RINSE_AGENT
  deriving DecidableEq, Repr

/-- The Python member name of an `ErdCode` (used by the `ErdCode[name]`
lookup in `translate_erd_code`). -/
def ErdCode.pyName : ErdCode → String
  | .APPLIANCE_TYPE => "APPLIANCE_TYPE"
  | .MODEL_NUMBER => "MODEL_NUMBER"
  | .SERIAL_NUMBER => "SERIAL_NUMBER"
  | .SABBATH_MODE => "SABBATH_MODE"
  | .ACM_UPDATING => "ACM_UPDATING"
  | .APPLIANCE_UPDATING => "APPLIANCE_UPDATING"
  | .LCD_UPDATING => "LCD_UPDATING"
  | .CLOCK_FORMAT => "CLOCK_FORMAT"
  | .END_TONE => "END_TONE"
  | .SOUND_LEVEL => "SOUND_LEVEL"
  | .TEMPERATURE_UNIT => "TEMPERATURE_UNIT"
  | .APPLIANCE_SW_VERSION => "APPLIANCE_SW_VERSION"
  | .APPLIANCE_SW_VERSION_AVAILABLE => "APPLIANCE_SW_VERSION_AVAILABLE"
  | .LCD_SW_VERSION => "LCD_SW_VERSION"
  | .LCD_SW_VERSION_AVAILABLE => "LCD_SW_VERSION_AVAILABLE"
  | .WIFI_MODULE_SW_VERSION => "WIFI_MODULE_SW_VERSION"
  | .WIFI_MODULE_SW_VERSION_AVAILABLE => "WIFI_MODULE_SW_VERSION_AVAILABLE"
  | .HOT_WATER_SET_TEMP => "HOT_WATER_SET_TEMP"
  | .HOT_WATER_IN_USE => "HOT_WATER_IN_USE"
  | .TURBO_FREEZE_STATUS => "TURBO_FREEZE_STATUS"
  | .TURBO_COOL_STATUS => "TURBO_COOL_STATUS"
  | .DOOR_STATUS => "DOOR_STATUS"
  | .HOT_WATER_STATUS => "HOT_WATER_STATUS"
  | .ICE_MAKER_BUCKET_STATUS => "ICE_MAKER_BUCKET_STATUS"
  | .ICE_MAKER_CONTROL => "ICE_MAKER_CONTROL"
  | .WATER_FILTER_STATUS => "WATER_FILTER_STATUS"
  | .SETPOINT_LIMITS => "SETPOINT_LIMITS"
  | .CURRENT_TEMPERATURE => "CURRENT_TEMPERATURE"
  | .TEMPERATURE_SETTING => "TEMPERATURE_SETTING"
  | .LOWER_OVEN_PROBE_PRESENT => "LOWER_OVEN_PROBE_PRESENT"
  | .LOWER_OVEN_REMOTE_ENABLED => "LOWER_OVEN_REMOTE_ENABLED"
  | .LOWER_OVEN_DISPLAY_TEMPERATURE => "LOWER_OVEN_DISPLAY_TEMPERATURE"
  | .LOWER_OVEN_PROBE_DISPLAY_TEMP => "LOWER_OVEN_PROBE_DISPLAY_TEMP"
  | .LOWER_OVEN_RAW_TEMPERATURE => "LOWER_OVEN_RAW_TEMPERATURE"
  | .LOWER_OVEN_USER_TEMP_OFFSET => "LOWER_OVEN_USER_TEMP_OFFSET"
  | .LOWER_OVEN_COOK_TIME_REMAINING => "LOWER_OVEN_COOK_TIME_REMAINING"
  | .LOWER_OVEN_DELAY_TIME_REMAINING => "LOWER_OVEN_DELAY_TIME_REMAINING"
  | .LOWER_OVEN_ELAPSED_COOK_TIME => "LOWER_OVEN_ELAPSED_COOK_TIME"
  | .LOWER_OVEN_KITCHEN_TIMER => "LOWER_OVEN_KITCHEN_TIMER"
  | .LOWER_OVEN_CURRENT_STATE => "LOWER_OVEN_CURRENT_STATE"
  | .LOWER_OVEN_AVAILABLE_COOK_MODES => "LOWER_OVEN_AVAILABLE_COOK_MODES"
  | .LOWER_OVEN_COOK_MODE => "LOWER_OVEN_COOK_MODE"
  | .UPPER_OVEN_PROBE_PRESENT => "UPPER_OVEN_PROBE_PRESENT"
  | .UPPER_OVEN_REMOTE_ENABLED => "UPPER_OVEN_REMOTE_ENABLED"
  | .UPPER_OVEN_DISPLAY_TEMPERATURE => "UPPER_OVEN_DISPLAY_TEMPERATURE"
  | .UPPER_OVEN_PROBE_DISPLAY_TEMP => "UPPER_OVEN_PROBE_DISPLAY_TEMP"
  | .UPPER_OVEN_RAW_TEMPERATURE => "UPPER_OVEN_RAW_TEMPERATURE"
  | .UPPER_OVEN_USER_TEMP_OFFSET => "UPPER_OVEN_USER_TEMP_OFFSET"
  | .UPPER_OVEN_COOK_TIME_REMAINING => "UPPER_OVEN_COOK_TIME_REMAINING"
  | .UPPER_OVEN_DELAY_TIME_REMAINING => "UPPER_OVEN_DELAY_TIME_REMAINING"
  | .UPPER_OVEN_ELAPSED_COOK_TIME => "UPPER_OVEN_ELAPSED_COOK_TIME"
  | .UPPER_OVEN_KITCHEN_TIMER => "UPPER_OVEN_KITCHEN_TIMER"
  | .UPPER_OVEN_CURRENT_STATE => "UPPER_OVEN_CURRENT_STATE"
  | .UPPER_OVEN_AVAILABLE_COOK_MODES => "UPPER_OVEN_AVAILABLE_COOK_MODES"
  | .UPPER_OVEN_COOK_MODE => "UPPER_OVEN_COOK_MODE"
  | .CONVECTION_CONVERSION => "CONVECTION_CONVERSION"
  | .HOUR_12_SHUTOFF_ENABLED => "HOUR_12_SHUTOFF_ENABLED"
  | .OVEN_CONFIGURATION => "OVEN_CONFIGURATION"
  | .OVEN_MODE_MIN_MAX_TEMP => "OVEN_MODE_MIN_MAX_TEMP"
  | .CYCLE_NAME => "CYCLE_NAME"
  | .PODS_REMAINING_VALUE => "PODS_REMAINING_VALUE"
  | .TIME_REMAINING => "TIME_REMAINING"
  | .CYCLE_STATE => "CYCLE_STATE"
  | .OPERATING_MODE => "OPERATING_MODE"
  | .RINSE_AGENT => "RINSE_AGENT"

/-- All modelled `ErdCode` members. -/
def ErdCode.members : List ErdCode :=
  [.APPLIANCE_TYPE, .MODEL_NUMBER, .SERIAL_NUMBER, .SABBATH_MODE,
   .ACM_UPDATING, .APPLIANCE_UPDATING, .LCD_UPDATING, .CLOCK_FORMAT,
   .END_TONE, .SOUND_LEVEL, .TEMPERATURE_UNIT, .APPLIANCE_SW_VERSION,
   .APPLIANCE_SW_VERSION_AVAILABLE, .LCD_SW_VERSION, .LCD_SW_VERSION_AVAILABLE,
   .WIFI_MODULE_SW_VERSION, .WIFI_MODULE_SW_VERSION_AVAILABLE,
   .HOT_WATER_SET_TEMP, .HOT_WATER_IN_USE, .TURBO_FREEZE_STATUS,
   .TURBO_COOL_STATUS, .DOOR_STATUS, .HOT_WATER_STATUS,
   .ICE_MAKER_BUCKET_STATUS, .ICE_MAKER_CONTROL, .WATER_FILTER_STATUS,
   .SETPOINT_LIMITS, .CURRENT_TEMPERATURE, .TEMPERATURE_SETTING,
   .LOWER_OVEN_PROBE_PRESENT, .LOWER_OVEN_REMOTE_ENABLED,
   .LOWER_OVEN_DISPLAY_TEMPERATURE, .LOWER_OVEN_PROBE_DISPLAY_TEMP,
   .LOWER_OVEN_RAW_TEMPERATURE, .LOWER_OVEN_USER_TEMP_OFFSET,
   .LOWER_OVEN_COOK_TIME_REMAINING, .LOWER_OVEN_DELAY_TIME_REMAINING,
   .LOWER_OVEN_ELAPSED_COOK_TIME, .LOWER_OVEN_KITCHEN_TIMER,
   .LOWER_OVEN_CURRENT_STATE, .LOWER_OVEN_AVAILABLE_COOK_MODES,
   .LOWER_OVEN_COOK_MODE,
   .UPPER_OVEN_PROBE_PRESENT, .UPPER_OVEN_REMOTE_ENABLED,
   .UPPER_OVEN_DISPLAY_TEMPERATURE, .UPPER_OVEN_PROBE_DISPLAY_TEMP,
   .UPPER_OVEN_RAW_TEMPERATURE, .UPPER_OVEN_USER_TEMP_OFFSET,
   .UPPER_OVEN_COOK_TIME_REMAINING, .UPPER_OVEN_DELAY_TIME_REMAINING,
   .UPPER_OVEN_ELAPSED_COOK_TIME, .UPPER_OVEN_KITCHEN_TIMER,
   .UPPER_OVEN_CURRENT_STATE, .UPPER_OVEN_AVAILABLE_COOK_MODES,
   .UPPER_OVEN_COOK_MODE,
   .CONVECTION_CONVERSION, .HOUR_12_SHUTOFF_ENABLED, .OVEN_CONFIGURATION,
   .OVEN_MODE_MIN_MAX_TEMP,
   .CYCLE_NAME, .PODS_REMAINING_VALUE, .TIME_REMAINING, .CYCLE_STATE,
   .OPERATING_MODE, .RINSE_AGENT]

/-- Modelled from the spec: the hex wire value of each `ErdCode` member is
defined in the missing `erd_codes.py`.  All the resolver needs of it is a
lowercase string distinct per member and disjoint from the member names, so
the model uses the lowercased member name with an `"0x"` prefix.  No claim
depends on the concrete strings. -/
def ErdCode.wireValue (c : ErdCode) : String :=
  "0x" ++ pyLower c.pyName

/-- Embeds `ErdCode[s]`: lookup by member name. -/
def ErdCode.byName (s : String) : Option ErdCode :=
  ErdCode.members.find? (fun c => c.pyName = s)

/-- Embeds `ErdCode(s)`: lookup by wire value. -/
def ErdCode.byWireValue (s : String) : Option ErdCode :=
  ErdCode.members.find? (fun c => c.wireValue = s)

/-- Embeds `ErdCodeType = Union[ErdCode, str]`. -/
inductive ErdCodeT where
  | known (c : ErdCode)
  | str (s : String)
  deriving DecidableEq, Repr

/-- Embeds `translate_erd_code`: an `ErdCode` is returned unchanged; a string is
looked up by member name, then (lowercased) by wire value, and returned
unchanged when both fail. -/
def translate_erd_code (erd_code : ErdCodeT) : ErdCodeT :=
  match erd_code with
  | .known c => .known c
  | .str s =>
    match ErdCode.byName s with
    | some c => .known c
    | none =>
      match ErdCode.byWireValue (pyLower s) with
      | some c => .known c
      | none => .str s

/- ------------------------------------------------------------------
Decoded values and the decoder/encoder registries
------------------------------------------------------------------ -/

/-- The dynamic type of a decoded (non-`None`) ERD value: one constructor
per result type of the registered decoders.  Structural equality of these
values models Python `==`/`!=` on them (within a single code, old and new
cached values always come from the same decoder, so Python's cross-type
equality corner cases such as `True == 1` cannot arise). -/
inductive ErdValue where
  | vInt (n : Nat)
  | vStr (s : String)
  | vBool (b : Bool)
  | vTimespan (t : PyTimeDelta)
  | vBytes (bs : List Nat)
  | vApplianceType (t : ErdApplianceType)
  | vClockFormat (c : ErdClockFormat)
  | vEndTone (e : ErdEndTone)
  | vSoundLevel (s : ErdSoundLevel)
  | vMeasurementUnits (u : ErdMeasurementUnits)
  | vDoorStatus (d : FridgeDoorStatus)
  | vHotWater (h : HotWaterStatus)
  | vIceBucket (i : FridgeIceBucketStatus)
  | vIceMakerControl (i : IceMakerControlStatus)
  | vSetPointLimits (l : FridgeSetPointLimits)
  | vSetPoints (p : FridgeSetPoints)
  | vOvenConfig (c : OvenConfiguration)
  | vIntPair (lower upper : Nat)
  | vOvenState (s : ErdOvenState)
  | vCookModes (ms : List ErdOvenCookMode)
  | vOvenCookSetting (s : OvenCookSetting)
  | vFilterStatus (f : ErdFilterStatus)
  deriving DecidableEq, Repr

/-- A registered decoder: raw hex string to decoded value (`none` models a
decoder returning Python `None`). -/
abbrev ErdDecoder := String → Except PyErr (Option ErdValue)

/-- A registered encoder: decoded value to raw hex string. -/
abbrev ErdEncoder := ErdValue → Except PyErr String

/-- Embeds `decode_erd_int` wrapped into the registry's dynamic value type. -/
def dInt : ErdDecoder := fun s => (decode_erd_int s).map (fun n => some (.vInt n))

/-- Embeds `_decode_erd_string` wrapped. -/
def dString : ErdDecoder := fun s => (decode_erd_string s).map (fun v => some (.vStr v))

/-- Embeds `_decode_erd_bool` wrapped: a Python `None` result stays `none`. -/
def dBool : ErdDecoder := fun s => (decode_erd_bool s).map (Option.map .vBool)

/-- Embeds `_decode_timespan` wrapped: a Python `None` result stays `none`. -/
def dTimespan : ErdDecoder := fun s => (decode_timespan s).map (Option.map .vTimespan)

/-- Embeds `_decode_appliance_type` wrapped. -/
def dApplianceType : ErdDecoder := fun s => .ok (some (.vApplianceType (decode_appliance_type s)))

/-- Embeds `_decode_clock_format` wrapped. -/
def dClockFormat : ErdDecoder := fun s => (decode_clock_format s).map (fun v => some (.vClockFormat v))

/-- Embeds `_decode_end_tone` wrapped. -/
def dEndTone : ErdDecoder := fun s => .ok (some (.vEndTone (decode_end_tone s)))

/-- Embeds `_decode_sound_level` wrapped. -/
def dSoundLevel : ErdDecoder := fun s => (decode_sound_level s).map (fun v => some (.vSoundLevel v))

/-- Embeds `_decode_measurement_unit` wrapped. -/
def dMeasurementUnit : ErdDecoder :=
  fun s => (decode_measurement_unit s).map (fun v => some (.vMeasurementUnits v))

/-- Embeds `_decode_sw_version` wrapped. -/
def dSwVersion : ErdDecoder := fun s => (decode_sw_version s).map (fun v => some (.vStr v))

/-- Embeds `_decode_fridge_door` wrapped. -/
def dFridgeDoor : ErdDecoder := fun s => .ok (some (.vDoorStatus (decode_fridge_door s)))

/-- Embeds `_decode_hot_water_status` wrapped. -/
def dHotWater : ErdDecoder := fun s => (decode_hot_water_status s).map (fun v => some (.vHotWater v))

/-- Embeds `_decode_ice_bucket_status` wrapped. -/
def dIceBucket : ErdDecoder := fun s => (decode_ice_bucket_status s).map (fun v => some (.vIceBucket v))

/-- Embeds `_decode_ice_maker_control` wrapped. -/
def dIceMakerControl : ErdDecoder := fun s => .ok (some (.vIceMakerControl (decode_ice_maker_control s)))

/-- Embeds `_decode_fridge_limits` wrapped. -/
def dFridgeLimits : ErdDecoder := fun s => (decode_fridge_limits s).map (fun v => some (.vSetPointLimits v))

/-- Embeds `_decode_fridge_setpoint` wrapped. -/
def dFridgeSetpoint : ErdDecoder := fun s => (decode_fridge_setpoint s).map (fun v => some (.vSetPoints v))

/-- Embeds `_decode_oven_configuration` wrapped. -/
def dOvenConfiguration : ErdDecoder :=
  fun s => (decode_oven_configuration s).map (fun v => some (.vOvenConfig v))

/-- Embeds `_decode_oven_ranges` wrapped. -/
def dOvenRanges : ErdDecoder :=
  fun s => (decode_oven_ranges s).map (fun v => some (.vIntPair v.1 v.2))

/-- Embeds `_decode_oven_state` wrapped. -/
def dOvenState : ErdDecoder := fun s => (decode_oven_state s).map (fun v => some (.vOvenState v))

/-- Embeds `_decode_cook_modes` wrapped. -/
def dCookModes : ErdDecoder := fun s => (decode_cook_modes s).map (fun v => some (.vCookModes v))

/-- Embeds `_decode_oven_cook_mode` wrapped. -/
def dOvenCookMode : ErdDecoder :=
  fun s => (decode_oven_cook_mode s).map (fun v => some (.vOvenCookSetting v))

/-- Embeds `_decode_filter_status` wrapped. -/
def dFilterStatus : ErdDecoder := fun s => .ok (some (.vFilterStatus (decode_filter_status s)))

/-- Embeds `ERD_DECODERS`: the decoder registered for each `ErdCode`, `none` for
codes with no registered decoder (here: the dishwasher codes, which appear
only in the newer `erd/registry.py` and not in `erd_utils.ERD_DECODERS`). -/
def ERD_DECODERS (c : ErdCode) : Option ErdDecoder :=
  match c with
  | .HOT_WATER_SET_TEMP | .LOWER_OVEN_DISPLAY_TEMPERATURE
  | .LOWER_OVEN_PROBE_DISPLAY_TEMP | .LOWER_OVEN_RAW_TEMPERATURE
  | .LOWER_OVEN_USER_TEMP_OFFSET | .UPPER_OVEN_DISPLAY_TEMPERATURE
  | .UPPER_OVEN_PROBE_DISPLAY_TEMP | .UPPER_OVEN_RAW_TEMPERATURE
  | .UPPER_OVEN_USER_TEMP_OFFSET => some dInt
  | .MODEL_NUMBER | .SERIAL_NUMBER => some dString
  | .CONVECTION_CONVERSION | .HOT_WATER_IN_USE | .HOUR_12_SHUTOFF_ENABLED
  | .SABBATH_MODE | .LOWER_OVEN_PROBE_PRESENT | .LOWER_OVEN_REMOTE_ENABLED
  | .UPPER_OVEN_PROBE_PRESENT | .UPPER_OVEN_REMOTE_ENABLED
  | .TURBO_FREEZE_STATUS | .TURBO_COOL_STATUS | .ACM_UPDATING
  | .APPLIANCE_UPDATING | .LCD_UPDATING => some dBool
  | .LOWER_OVEN_COOK_TIME_REMAINING | .LOWER_OVEN_DELAY_TIME_REMAINING
  | .LOWER_OVEN_ELAPSED_COOK_TIME | .LOWER_OVEN_KITCHEN_TIMER
  | .UPPER_OVEN_COOK_TIME_REMAINING | .UPPER_OVEN_DELAY_TIME_REMAINING
  | .UPPER_OVEN_ELAPSED_COOK_TIME | .UPPER_OVEN_KITCHEN_TIMER => some dTimespan
  | .APPLIANCE_TYPE => some dApplianceType
  | .CLOCK_FORMAT => some dClockFormat
  | .END_TONE => some dEndTone
  | .SOUND_LEVEL => some dSoundLevel
  | .TEMPERATURE_UNIT => some dMeasurementUnit
  | .APPLIANCE_SW_VERSION | .APPLIANCE_SW_VERSION_AVAILABLE
  | .LCD_SW_VERSION | .LCD_SW_VERSION_AVAILABLE
  | .WIFI_MODULE_SW_VERSION | .WIFI_MODULE_SW_VERSION_AVAILABLE => some dSwVersion
  | .DOOR_STATUS => some dFridgeDoor
  | .HOT_WATER_STATUS => some dHotWater
  | .ICE_MAKER_BUCKET_STATUS => some dIceBucket
  | .ICE_MAKER_CONTROL => some dIceMakerControl
  | .SETPOINT_LIMITS => some dFridgeLimits
  | .CURRENT_TEMPERATURE | .TEMPERATURE_SETTING => some dFridgeSetpoint
  | .OVEN_CONFIGURATION => some dOvenConfiguration
  | .OVEN_MODE_MIN_MAX_TEMP => some dOvenRanges
  | .LOWER_OVEN_CURRENT_STATE | .UPPER_OVEN_CURRENT_STATE => some dOvenState
  | .LOWER_OVEN_AVAILABLE_COOK_MODES | .UPPER_OVEN_AVAILABLE_COOK_MODES => some dCookModes
  | .LOWER_OVEN_COOK_MODE | .UPPER_OVEN_COOK_MODE => some dOvenCookMode
  | .WATER_FILTER_STATUS => some dFilterStatus
  | .CYCLE_NAME | .PODS_REMAINING_VALUE | .TIME_REMAINING | .CYCLE_STATE
  | .OPERATING_MODE | .RINSE_AGENT => none

/-- Embeds `_encode_erd_int` wrapped (a non-integer value raises). -/
def eInt : ErdEncoder := fun v =>
  match v with
  | .vInt n => encode_erd_int n
  | _ => .error .typeError

/-- Embeds `_encode_timespan` wrapped (the dispatcher has already peeled `None`). -/
def eTimespan : ErdEncoder := fun v =>
  match v with
  | .vTimespan t => encode_timespan (some t)
  | _ => .error .typeError

/-- Embeds `_encode_erd_bool` wrapped. -/
def eBool : ErdEncoder := fun v =>
  match v with
  | .vBool b => .ok (encode_erd_bool (some b))
  | _ => .error .typeError

/-- Embeds `_encode_clock_format` wrapped. -/
def eClockFormat : ErdEncoder := fun v =>
  match v with
  | .vClockFormat c => .ok (encode_clock_format c)
  | _ => .error .typeError

/-- Embeds `_encode_end_tone` wrapped. -/
def eEndTone : ErdEncoder := fun v =>
  match v with
  | .vEndTone e => encode_end_tone e
  | _ => .error .typeError

/-- Embeds `_encode_ice_maker_control` wrapped. -/
def eIceMakerControl : ErdEncoder := fun v =>
  match v with
  | .vIceMakerControl i => .ok (encode_ice_maker_control i)
  | _ => .error .typeError

/-- Embeds `_encode_oven_cook_mode` wrapped. -/
def eOvenCookMode : ErdEncoder := fun v =>
  match v with
  | .vOvenCookSetting s => encode_oven_cook_mode s
  | _ => .error .typeError

/-- Embeds `_encode_sound_level` wrapped. -/
def eSoundLevel : ErdEncoder := fun v =>
  match v with
  | .vSoundLevel s => encode_sound_level s
  | _ => .error .typeError

/-- Embeds `_encode_fridge_setpoint` wrapped. -/
def eFridgeSetpoint : ErdEncoder := fun v =>
  match v with
  | .vSetPoints p => encode_fridge_setpoint p
  | _ => .error .typeError

/-- Embeds `_encode_measurement_unit` wrapped. -/
def eMeasurementUnit : ErdEncoder := fun v =>
  match v with
  | .vMeasurementUnits u => .ok (encode_measurement_unit u)
  | _ => .error .typeError

/-- Embeds `ERD_ENCODERS`: the encoder registered for each `ErdCode`; most codes
have none. -/
def ERD_ENCODERS (c : ErdCode) : Option ErdEncoder :=
  match c with
  | .HOT_WATER_SET_TEMP => some eInt
  | .LOWER_OVEN_COOK_TIME_REMAINING | .LOWER_OVEN_DELAY_TIME_REMAINING
  | .LOWER_OVEN_KITCHEN_TIMER | .UPPER_OVEN_COOK_TIME_REMAINING
  | .UPPER_OVEN_DELAY_TIME_REMAINING | .UPPER_OVEN_KITCHEN_TIMER => some eTimespan
  | .CONVECTION_CONVERSION | .SABBATH_MODE | .TURBO_FREEZE_STATUS
  | .TURBO_COOL_STATUS => some eBool
  | .CLOCK_FORMAT => some eClockFormat
  | .END_TONE => some eEndTone
  | .ICE_MAKER_CONTROL => some eIceMakerControl
  | .LOWER_OVEN_COOK_MODE | .UPPER_OVEN_COOK_MODE => some eOvenCookMode
  | .SOUND_LEVEL => some eSoundLevel
  | .TEMPERATURE_SETTING => some eFridgeSetpoint
  | .TEMPERATURE_UNIT => some eMeasurementUnit
  | _ => none

/- ------------------------------------------------------------------
Dispatch and state cache (`gekitchen/ge_appliance.py`)
------------------------------------------------------------------ -/

/-- Embeds `GeAppliance.decode_erd_value`: the empty raw value decodes to `None`
unconditionally; a code unresolved after translation is decoded as raw
bytes; a registered decoder is applied; otherwise `decode_erd_int` is the
fallback.  (The Python `except KeyError` around the registry lookup only
ever fires for the lookup itself: no registered decoder raises `KeyError`
internally.) -/
def decode_erd_value (erd_code : ErdCodeT) (erd_value : String) :
    Except PyErr (Option ErdValue) :=
  if erd_value = "" then .ok none
  else
    match translate_erd_code erd_code with
    | .str _ => (decode_erd_bytes erd_value).map (fun bs => some (.vBytes bs))
    | .known c =>
      match ERD_DECODERS c with
      | some d => d erd_value
      | none => (decode_erd_int erd_value).map (fun n => some (.vInt n))

/-- Embeds `GeAppliance.encode_erd_value`: `None` encodes to the empty string; a
missing encoder entry is a `KeyError`, which the source re-raises. -/
def encode_erd_value (erd_code : ErdCodeT) (value : Option ErdValue) :
    Except PyErr String :=
  match value with
  | none => .ok ""
  | some v =>
    match translate_erd_code erd_code with
    | .str _ => .error .keyError
    | .known c =>
      match ERD_ENCODERS c with
      | some e => e v
      | none => .error .keyError

/-- Embeds `ErdReadOnlyConverter.erd_encode` (`erd/converters/abstract.py`):
`raise NotImplementedError`, whatever the value. -/
def erd_read_only_encode (_value : ErdValue) : Except PyErr String :=
  .error .notImplementedError

/-- The `_property_cache` dict: `none` means the key is absent (a read
raises `KeyError`); `some v` means the key holds decoded value `v` (which
may itself be Python `None` = `some none`). -/
def Cache := ErdCodeT → Option (Option ErdValue)

/-- A fresh appliance's empty property cache. -/
def emptyCache : Cache := fun _ => none

/-- A comparison oracle standing for Python's `old_value != value`, which
the source wraps in `try/except ValueError`.  `pyNeq` is the concrete
comparison; quantifying over this argument captures comparisons that
raise. -/
abbrev NeqOracle := Option ErdValue → Option ErdValue → Except PyErr Bool

/-- Python `!=` on decoded values: total structural inequality. -/
def pyNeq : NeqOracle := fun a b => .ok (decide (a ≠ b))

/-- Embeds `GeAppliance.async_update_erd_value`: translate, decode, compute
`state_changed = ((old is None) != (value is None)) or (old != value)`
(`ValueError` from the comparison is caught and treated as "not changed"),
then unconditionally overwrite the cache entry and report the flag. -/
def async_update_erd_value (neq : NeqOracle) (cache : Cache)
    (erd_code : ErdCodeT) (erd_value : String) : Except PyErr (Bool × Cache) := do
  let erd_code := translate_erd_code erd_code
  let value ← decode_erd_value erd_code erd_value
  let old_value := (cache erd_code).getD none
  let state_changed :=
    if old_value.isNone != value.isNone then true
    else
      match neq old_value value with
      | .ok b => b
      | .error _ => false
  .ok (state_changed, fun k => if k = erd_code then some value else cache k)

/-- Embeds `GeAppliance.async_update_erd_values`: apply each pair in order via
`async_update_erd_value`, and collect `translate_erd_code(k) ↦
decode_erd_value(k, v)` for exactly the pairs that reported a change.  (The
Python input is a dict; it is embedded as the association list of its
items in iteration order.) -/
def async_update_erd_values (neq : NeqOracle) (cache : Cache) :
    List (ErdCodeT × String) → Except PyErr (List (ErdCodeT × Option ErdValue) × Cache)
  | [] => .ok ([], cache)
  | (k, v) :: rest => do
    let (changed, cache') ← async_update_erd_value neq cache k v
    if changed then do
      let dv ← decode_erd_value k v
      let (tail, cacheFin) ← async_update_erd_values neq cache' rest
      .ok ((translate_erd_code k, dv) :: tail, cacheFin)
    else
      async_update_erd_values neq cache' rest

/-- Embeds `GeAppliance.get_erd_value`: translate and read the cache; `none` is a
`KeyError` escaping to the caller. -/
def get_erd_value (cache : Cache) (erd_code : ErdCodeT) : Option (Option ErdValue) :=
  cache (translate_erd_code erd_code)

/- ------------------------------------------------------------------
Helper lemmas
------------------------------------------------------------------ -/

/-- Unfolding lemma: when the decode succeeds, `async_update_erd_value`
returns the change flag computed from the cached and new values, and the
cache with exactly the translated code's entry overwritten. -/
theorem async_update_erd_value_eq (neq : NeqOracle) (cache : Cache)
    (code : ErdCodeT) (raw : String) (v : Option ErdValue)
    (h : decode_erd_value (translate_erd_code code) raw = .ok v) :
    async_update_erd_value neq cache code raw =
      .ok ((if ((cache (translate_erd_code code)).getD none).isNone != v.isNone then true
            else
              match neq ((cache (translate_erd_code code)).getD none) v with
              | .ok b => b
              | .error _ => false),
           fun k => if k = translate_erd_code code then some v else cache k) := by
  unfold async_update_erd_value
  dsimp only
  rw [h]
  rfl

/- ------------------------------------------------------------------
Claim theorems
------------------------------------------------------------------ -/

/-- C2: `decode_erd_value` dispatch — the empty raw value decodes to null
for every code; a code left unresolved by translation is decoded as raw
bytes; a resolved code with a registered decoder is decoded by that
decoder; a resolved code without one falls back to the plain unsigned
integer decode. -/
theorem C2_decode_value_dispatch :
    (∀ code : ErdCodeT, decode_erd_value code "" = .ok none)
    ∧ (∀ (code : ErdCodeT) (s raw : String), raw ≠ "" →
        translate_erd_code code = .str s →
        decode_erd_value code raw = (decode_erd_bytes raw).map (fun bs => some (.vBytes bs)))
    ∧ (∀ (code : ErdCodeT) (c : ErdCode) (d : ErdDecoder) (raw : String), raw ≠ "" →
        translate_erd_code code = .known c → ERD_DECODERS c = some d →
        decode_erd_value code raw = d raw)
    ∧ (∀ (code : ErdCodeT) (c : ErdCode) (raw : String), raw ≠ "" →
        translate_erd_code code = .known c → ERD_DECODERS c = none →
        decode_erd_value code raw = (decode_erd_int raw).map (fun n => some (.vInt n))) := by
  refine ⟨?_, ?_, ?_, ?_⟩
  · intro code; simp [decode_erd_value]
  · intro code s raw hraw htr; simp [decode_erd_value, hraw, htr]
  · intro code c d raw hraw htr hreg; simp [decode_erd_value, hraw, htr, hreg]
  · intro code c raw hraw htr hreg; simp [decode_erd_value, hraw, htr, hreg]

/-- C2 witness: the four dispatch branches at concrete inputs — the empty
value on a registered code, an unresolvable string code, the registered
door-status decoder, and the unregistered (dishwasher) `CYCLE_NAME` code. -/
theorem C2_decode_value_dispatch_witness :
    decode_erd_value (.known .DOOR_STATUS) "" = .ok none
    ∧ ("0102" : String) ≠ ""
    ∧ decode_erd_value (.str "JUNK_CODE") "0102" =
        (decode_erd_bytes "0102").map (fun bs => some (.vBytes bs))
    ∧ decode_erd_value (.known .DOOR_STATUS) "01000000" = dFridgeDoor "01000000"
    ∧ decode_erd_value (.known .CYCLE_NAME) "0102" =
        (decode_erd_int "0102").map (fun n => some (.vInt n)) :=
  ⟨C2_decode_value_dispatch.1 _, by decide,
   C2_decode_value_dispatch.2.1 _ "JUNK_CODE" _ (by decide) (by decide),
   C2_decode_value_dispatch.2.2.1 _ .DOOR_STATUS dFridgeDoor _ (by decide) (by decide) rfl,
   C2_decode_value_dispatch.2.2.2 _ .CYCLE_NAME _ (by decide) (by decide) rfl⟩

/-- C1 counterexample: a first call on a fresh cache need not report a
change — the raw value `"FF"` for the boolean `SABBATH_MODE` code decodes
to null, matching the absent (null) cached value, so the first of two
successive identical calls already returns `changed = false`, not
`changed = true` as the claim states. -/
theorem C1_counterexample :
    (async_update_erd_value pyNeq emptyCache (.known .SABBATH_MODE) "FF").map Prod.fst ≠ .ok true
    ∧ (async_update_erd_value pyNeq emptyCache (.known .SABBATH_MODE) "FF").map Prod.fst =
        .ok false := by
  exact ⟨by decide, by decide⟩

/-- C1 (amended): `async_update_erd_value` reports a change exactly when
the null-ness of the previously cached value differs from that of the newly
decoded value or the two values are structurally unequal; and when the
cache holds no entry for the code and the raw value decodes to a *non-null*
value, two successive identical calls return `changed = true` then
`changed = false`. -/
theorem C1_change_detection :
    (∀ (cache : Cache) (code : ErdCodeT) (raw : String) (v : Option ErdValue),
      decode_erd_value (translate_erd_code code) raw = .ok v →
      (async_update_erd_value pyNeq cache code raw).map Prod.fst =
        .ok ((((cache (translate_erd_code code)).getD none).isNone != v.isNone)
             || decide ((cache (translate_erd_code code)).getD none ≠ v)))
    ∧ (∀ (cache : Cache) (code : ErdCodeT) (raw : String) (w : ErdValue),
      decode_erd_value (translate_erd_code code) raw = .ok (some w) →
      cache (translate_erd_code code) = none →
      ∃ cache₂ : Cache,
        async_update_erd_value pyNeq cache code raw = .ok (true, cache₂) ∧
        (async_update_erd_value pyNeq cache₂ code raw).map Prod.fst = .ok false) := by
  constructor
  · intro cache code raw v h
    rw [async_update_erd_value_eq pyNeq cache code raw v h]
    simp only [Except.map]
    cases hb : ((cache (translate_erd_code code)).getD none).isNone != v.isNone <;>
      simp [hb, pyNeq]
  · intro cache code raw w h hnone
    refine ⟨fun k => if k = translate_erd_code code then some (some w) else cache k, ?_, ?_⟩
    · rw [async_update_erd_value_eq pyNeq cache code raw (some w) h, hnone]
      rfl
    · rw [async_update_erd_value_eq pyNeq _ code raw (some w) h]
      simp [pyNeq, Except.map]

/-- C1 witness: the change-flag characterization and the true-then-false
double update, both at `SABBATH_MODE` with raw value `"01"` on a fresh
cache. -/
theorem C1_change_detection_witness :
    ((async_update_erd_value pyNeq emptyCache (.known .SABBATH_MODE) "01").map Prod.fst =
      .ok ((((emptyCache (translate_erd_code (.known .SABBATH_MODE))).getD none).isNone
              != (some (ErdValue.vBool true) : Option ErdValue).isNone)
           || decide ((emptyCache (translate_erd_code (.known .SABBATH_MODE))).getD none
                ≠ some (ErdValue.vBool true))))
    ∧ ∃ cache₂ : Cache,
        async_update_erd_value pyNeq emptyCache (.known .SABBATH_MODE) "01" =
          .ok (true, cache₂) ∧
        (async_update_erd_value pyNeq cache₂ (.known .SABBATH_MODE) "01").map Prod.fst =
          .ok false :=
  ⟨C1_change_detection.1 emptyCache _ "01" (some (.vBool true)) (by decide),
   C1_change_detection.2 emptyCache _ "01" (.vBool true) (by decide) rfl⟩

/-- C3: whenever the decode succeeds, `async_update_erd_value` returns
normally (for *every* comparison oracle, including ones that raise), the
cache entry for the translated code always equals the newly decoded value,
and a raising comparison is treated as "no change". -/
theorem C3_cache_overwrite_comparison_failure :
    ∀ (neq : NeqOracle) (cache : Cache) (code : ErdCodeT) (raw : String) (v : Option ErdValue),
      decode_erd_value (translate_erd_code code) raw = .ok v →
      ∃ (b : Bool) (cache' : Cache),
        async_update_erd_value neq cache code raw = .ok (b, cache') ∧
        cache' (translate_erd_code code) = some v ∧
        (∀ e : PyErr,
          ((cache (translate_erd_code code)).getD none).isNone = v.isNone →
          neq ((cache (translate_erd_code code)).getD none) v = .error e →
          b = false) := by
  intro neq cache code raw v h
  refine ⟨_, _, async_update_erd_value_eq neq cache code raw v h, ?_, ?_⟩
  · simp
  · intro e hiso hneq
    simp [hiso, hneq]

/-- C3 witness: a comparison oracle that always raises, on a cache whose
`SABBATH_MODE` entry is `false` while the raw value decodes to `true` —
the update still returns, overwrites the entry, and reports no change. -/
theorem C3_cache_overwrite_comparison_failure_witness :
    ∃ (b : Bool) (cache' : Cache),
      async_update_erd_value (fun _ _ => .error .valueError)
        (fun _ => some (some (.vBool false))) (.known .SABBATH_MODE) "01" = .ok (b, cache') ∧
      cache' (translate_erd_code (.known .SABBATH_MODE)) = some (some (.vBool true)) ∧
      (∀ e : PyErr,
        ((((fun _ => some (some (ErdValue.vBool false))) : Cache)
            (translate_erd_code (.known .SABBATH_MODE))).getD none).isNone =
          (some (ErdValue.vBool true) : Option ErdValue).isNone →
        (fun _ _ => (Except.error PyErr.valueError : Except PyErr Bool))
            ((((fun _ => some (some (ErdValue.vBool false))) : Cache)
                (translate_erd_code (.known .SABBATH_MODE))).getD none)
            (some (ErdValue.vBool true)) = .error e →
        b = false) :=
  C3_cache_overwrite_comparison_failure (fun _ _ => .error .valueError)
    (fun _ => some (some (.vBool false))) (.known .SABBATH_MODE) "01"
    (some (.vBool true)) (by decide)

/-- C4 counterexample: for a non-null value, an unregistered code fails
with `KeyError` while a read-only converter's encode fails with
`NotImplementedError` — two *different* classes of failure, contradicting
"raise the same class of failure". -/
theorem C4_counterexample :
    encode_erd_value (.known .MODEL_NUMBER) (some (.vStr "AB")) = .error .keyError
    ∧ erd_read_only_encode (.vStr "AB") = .error .notImplementedError
    ∧ PyErr.keyError ≠ PyErr.notImplementedError := by
  exact ⟨by decide, rfl, by decide⟩

/-- C4 (amended): `encode_erd_value` returns the empty string for a null
value for every code; a non-null value whose resolved code has no
registered encoder fails loudly with `KeyError`; a read-only converter's
encode also fails loudly, but with the distinct class
`NotImplementedError`. -/
theorem C4_encode_failures :
    (∀ code : ErdCodeT, encode_erd_value code none = .ok "")
    ∧ (∀ (c : ErdCode) (v : ErdValue), ERD_ENCODERS c = none →
        encode_erd_value (.known c) (some v) = .error .keyError)
    ∧ (∀ v : ErdValue, erd_read_only_encode v = .error .notImplementedError) := by
  refine ⟨?_, ?_, fun _ => rfl⟩
  · intro code; rfl
  · intro c v hreg; simp [encode_erd_value, translate_erd_code, hreg]

/-- C4 witness: the three branches at concrete inputs (`MODEL_NUMBER` has
no entry in `ERD_ENCODERS`). -/
theorem C4_encode_failures_witness :
    encode_erd_value (.known .DOOR_STATUS) none = .ok ""
    ∧ encode_erd_value (.known .MODEL_NUMBER) (some (.vStr "AB")) = .error .keyError
    ∧ erd_read_only_encode (.vStr "AB") = .error .notImplementedError :=
  ⟨C4_encode_failures.1 _, C4_encode_failures.2.1 .MODEL_NUMBER _ rfl,
   C4_encode_failures.2.2 _⟩

/-- C8: a batched update on a fresh cache with the single pair
`DOOR_STATUS ↦ "01000000"` yields a change set with exactly one entry,
decoded as fridge-right open, all other doors closed, aggregate status
string `"Fridge Open"`. -/
theorem C8_door_status_update :
    (async_update_erd_values pyNeq emptyCache [(.known .DOOR_STATUS, "01000000")]).map
      Prod.fst =
      .ok [(.known .DOOR_STATUS,
            some (.vDoorStatus ⟨.OPEN, .CLOSED, .CLOSED, .CLOSED, "Fridge Open"⟩))] := by
  decide

/-- C10: the cache read is partial — it raises `KeyError` (modelled as
`none`) on a fresh cache for every code, and a single update makes the
read defined exactly on the codes whose translation was previously
updated. -/
theorem C10_cache_read_domain :
    (∀ code : ErdCodeT, get_erd_value emptyCache code = none)
    ∧ (∀ (cache : Cache) (code : ErdCodeT) (raw : String) (b : Bool) (cache' : Cache),
        async_update_erd_value pyNeq cache code raw = .ok (b, cache') →
        ∀ code2 : ErdCodeT,
          get_erd_value cache' code2 = none ↔
            (get_erd_value cache code2 = none ∧
             translate_erd_code code2 ≠ translate_erd_code code)) := by
  constructor
  · intro code; rfl
  · intro cache code raw b cache' h code2
    rcases hd : decode_erd_value (translate_erd_code code) raw with e | v
    · unfold async_update_erd_value at h
      dsimp only at h
      rw [hd] at h
      exact Except.noConfusion h
    · rw [async_update_erd_value_eq pyNeq cache code raw v hd] at h
      injection h with h'
      rw [Prod.ext_iff] at h'
      obtain ⟨-, hc⟩ := h'
      subst hc
      unfold get_erd_value
      by_cases hk : translate_erd_code code2 = translate_erd_code code <;> simp [hk]

/-- C10 witness: the fresh-cache read and the defined-exactly-on-updated
property after one concrete update. -/
theorem C10_cache_read_domain_witness :
    get_erd_value emptyCache (.known .DOOR_STATUS) = none
    ∧ (get_erd_value
          (fun k => if k = translate_erd_code (.known .SABBATH_MODE)
                    then some (some (.vBool true)) else emptyCache k)
          (.known .CYCLE_NAME) = none ↔
        (get_erd_value emptyCache (.known .CYCLE_NAME) = none ∧
         translate_erd_code (.known .CYCLE_NAME) ≠
           translate_erd_code (.known .SABBATH_MODE))) :=
  ⟨C10_cache_read_domain.1 _,
   C10_cache_read_domain.2 emptyCache (.known .SABBATH_MODE) "01" true _
     (async_update_erd_value_eq pyNeq emptyCache (.known .SABBATH_MODE) "01"
       (some (.vBool true)) (by decide)) _⟩

/-- C5: the timespan round-trip evaluated at the failing input 1440
minutes (one day): the encoder takes `timedelta.seconds` — the *within-day*
seconds — so a whole day is silently dropped and the round trip returns a
zero-minute span instead of 1440 minutes, contradicting round-trip identity
on [0, 65534].  The round trip does hold at 1439 minutes and for the null
sentinel, and `"FFFF"` decodes to null. -/
theorem C5_timespan_roundtrip_eval :
    (encode_timespan (some (timedeltaOfMinutes 1440))).bind decode_timespan =
      .ok (some (timedeltaOfMinutes 0))
    ∧ timedeltaOfMinutes 0 ≠ timedeltaOfMinutes 1440
    ∧ (encode_timespan (some (timedeltaOfMinutes 1439))).bind decode_timespan =
        .ok (some (timedeltaOfMinutes 1439))
    ∧ (encode_timespan none).bind decode_timespan = .ok none
    ∧ decode_timespan "FFFF" = .ok none := by
  exact ⟨by decide, by decide, by decide, by decide, by decide⟩

/-- C6 counterexample: on raw `"41424300"` (bytes `41 42 43 00`) the bytes
after stripping trailing NULs are `"ABC"` in ASCII, but the source drops
the first remaining byte and returns `"BC"` — not the ASCII decoding of
*all* remaining bytes. -/
theorem C6_counterexample :
    decode_erd_string "41424300" = .ok "BC"
    ∧ rstripZeros [65, 66, 67, 0] = [65, 66, 67]
    ∧ asciiDecode [65, 66, 67] = .ok "ABC"
    ∧ ("BC" : String) ≠ "ABC" := by
  exact ⟨by decide, by decide, by decide, by decide⟩

/-- C6 (amended): `decode_erd_string` converts the hex string to bytes,
strips trailing NUL bytes, drops the first remaining byte (believed to be a
checksum), and returns the ASCII decoding of the rest. -/
theorem C6_string_decode :
    ∀ (raw : String) (bs : List Nat) (s : String),
      strBytesFromHex raw = some bs →
      asciiDecode ((rstripZeros bs).drop 1) = .ok s →
      decode_erd_string raw = .ok s := by
  intro raw bs s h1 h2
  simpa [decode_erd_string, decode_erd_bytes, h1, Except.bind, List.drop_one] using h2

/-- C6 witness: `"0341424300"` (checksum byte `03`, text `"ABC"`, one NUL
of padding) decodes to `"ABC"`. -/
theorem C6_string_decode_witness :
    decode_erd_string "0341424300" = .ok "ABC" :=
  C6_string_decode "0341424300" [3, 65, 66, 67, 0] "ABC" (by decide) (by decide)

/-- C7 counterexample: raw `"02"` has the freezer bucket present and
reporting not-full while the fridge bucket is absent; the claim's aggregate
rule then demands `NOT_FULL`, but the source (which tests the fridge
presence flag twice) returns `NA`. -/
theorem C7_counterexample :
    decode_ice_bucket_status "02" =
      .ok ⟨.NA, .NOT_FULL, false, true, .NA⟩
    ∧ ErdFullNotFull.NA ≠ ErdFullNotFull.NOT_FULL := by
  exact ⟨by decide, by decide⟩

/-- C7 (amended): per-compartment full state is forced to `NA` when that
compartment's bucket is absent; the aggregate is `NA` exactly when the
*fridge* bucket is absent (the source tests the fridge flag twice), and
otherwise is `NOT_FULL` exactly when a present bucket reports not-full;
raw `"00"` decodes to all-`NA` with both buckets absent. -/
theorem C7_ice_bucket_status :
    (∀ (raw : String) (st : FridgeIceBucketStatus),
      decode_ice_bucket_status raw = .ok st →
      (st.is_present_fridge = false → st.state_full_fridge = .NA)
      ∧ (st.is_present_freezer = false → st.state_full_freezer = .NA)
      ∧ (st.total_status = .NA ↔ st.is_present_fridge = false)
      ∧ (st.is_present_fridge = true →
          (st.total_status = .NOT_FULL ↔
            (st.state_full_fridge = .NOT_FULL ∨ st.state_full_freezer = .NOT_FULL))))
    ∧ decode_ice_bucket_status "00" = .ok ⟨.NA, .NA, false, false, .NA⟩ := by
  constructor
  · intro raw st h
    by_cases hraw : raw = ""
    · subst hraw
      have h0 : decode_ice_bucket_status "" = .ok ⟨.NA, .NA, false, false, .NA⟩ := by decide
      rw [h0] at h
      injection h with h'
      subst h'
      decide
    · rcases hd : decode_erd_int raw with e | n
      · unfold decode_ice_bucket_status at h
        rw [if_neg hraw, hd] at h
        exact Except.noConfusion h
      · unfold decode_ice_bucket_status at h
        rw [if_neg hraw, hd] at h
        injection h with h'
        subst h'
        by_cases h1 : n &&& 1 = 0 <;> by_cases h2 : n &&& 2 = 0 <;>
          by_cases h4 : n &&& 4 = 0 <;> by_cases h8 : n &&& 8 = 0 <;>
          simp [h1, h2, h4, h8, -Nat.and_one_is_mod]
  · decide

/-- C7 witness: the quantified part applied at raw `"02"`. -/
theorem C7_ice_bucket_status_witness :
    (((⟨.NA, .NOT_FULL, false, true, .NA⟩ : FridgeIceBucketStatus).is_present_fridge = false →
        (⟨.NA, .NOT_FULL, false, true, .NA⟩ : FridgeIceBucketStatus).state_full_fridge = .NA)
      ∧ ((⟨.NA, .NOT_FULL, false, true, .NA⟩ : FridgeIceBucketStatus).is_present_freezer = false →
        (⟨.NA, .NOT_FULL, false, true, .NA⟩ : FridgeIceBucketStatus).state_full_freezer = .NA)
      ∧ ((⟨.NA, .NOT_FULL, false, true, .NA⟩ : FridgeIceBucketStatus).total_status = .NA ↔
        (⟨.NA, .NOT_FULL, false, true, .NA⟩ : FridgeIceBucketStatus).is_present_fridge = false)
      ∧ ((⟨.NA, .NOT_FULL, false, true, .NA⟩ : FridgeIceBucketStatus).is_present_fridge = true →
        ((⟨.NA, .NOT_FULL, false, true, .NA⟩ : FridgeIceBucketStatus).total_status = .NOT_FULL ↔
          ((⟨.NA, .NOT_FULL, false, true, .NA⟩ : FridgeIceBucketStatus).state_full_fridge =
            .NOT_FULL ∨
           (⟨.NA, .NOT_FULL, false, true, .NA⟩ : FridgeIceBucketStatus).state_full_freezer =
            .NOT_FULL)))) :=
  C7_ice_bucket_status.1 "02" ⟨.NA, .NOT_FULL, false, true, .NA⟩ (by decide)

/-- C9 counterexample: `"0A"` is a one-byte, nonzero raw hex value, but the
decoder parses base-10 (`bool(int(value))`), so it raises `ValueError`
instead of returning true. -/
theorem C9_counterexample :
    decode_erd_bool "0A" = .error .valueError
    ∧ ∀ b : Bool, decode_erd_bool "0A" ≠ .ok (some b) := by
  exact ⟨by decide, by decide⟩

/-- C9 (amended): `decode_erd_bool` returns null exactly for the raw value
`"FF"`; any other raw value is parsed base-10 — nonzero decimal → true,
zero → false, and a value with non-decimal characters (such as hex letter
digits) raises `ValueError`.  `encode_erd_bool` maps null to `"FF"`, true
to `"01"` and false to `"00"`. -/
theorem C9_bool_codec :
    decode_erd_bool "FF" = .ok none
    ∧ (∀ (s : String) (n : Nat), s ≠ "FF" → pyDecInt s = some n →
        decode_erd_bool s = .ok (some (decide (n ≠ 0))))
    ∧ (∀ s : String, s ≠ "FF" → pyDecInt s = none →
        decode_erd_bool s = .error .valueError)
    ∧ encode_erd_bool none = "FF"
    ∧ encode_erd_bool (some true) = "01"
    ∧ encode_erd_bool (some false) = "00" := by
  refine ⟨rfl, ?_, ?_, rfl, rfl, rfl⟩
  · intro s n hs hn; simp [decode_erd_bool, hs, hn]
  · intro s hs hn; simp [decode_erd_bool, hs, hn]

/-- C9 witness: the decimal branch at `"01"` and the raising branch at
`"0A"`. -/
theorem C9_bool_codec_witness :
    decode_erd_bool "01" = .ok (some (decide ((1 : Nat) ≠ 0)))
    ∧ decode_erd_bool "0A" = .error .valueError :=
  ⟨C9_bool_codec.2.1 "01" 1 (by decide) (by decide),
   C9_bool_codec.2.2.1 "0A" (by decide) (by decide)⟩

end GeKitchen

